import Mathlib

/-!
Verification development for the Wozz cost-audit core
(`action/audit_pr.py`, `scripts/generate-report.py`, `scripts/analyze-audit.py`).

Strings are modelled as `List Char`; Python floats are modelled as exact
rationals (`ℚ`), so float rounding is idealized away; a Python exception is
modelled as `Except.error` / `Option.none`.  Regex searches in the source are
modelled by equivalent explicit scanning functions, documented at each
definition.
-/

namespace Wozz

/-- Abbreviation for string literals as character lists. -/
def toL (s : String) : List Char := s.toList

instance {α β : Type} [DecidableEq α] [DecidableEq β] : DecidableEq (Except α β)
  | .error a, .error b => decidable_of_iff (a = b) (by simp)
  | .error _, .ok _ => isFalse (by simp)
  | .ok _, .error _ => isFalse (by simp)
  | .ok a, .ok b => decidable_of_iff (a = b) (by simp)

/-- Python whitespace (as used by `str.strip` and by the regex class `\s`). -/
def pyWS (c : Char) : Bool :=
  c = ' ' || c = '\t' || c = '\n' || c = '\r' || c = '\x0b' || c = '\x0c'

/-- Python `str.strip()`: drop whitespace from both ends. -/
def pyStrip (cs : List Char) : List Char :=
  ((cs.dropWhile pyWS).reverse.dropWhile pyWS).reverse

/-- Numeric value of a (already validated) list of decimal digit characters. -/
def digitsToNat (ds : List Char) : Nat :=
  ds.foldl (fun a c => 10 * a + (c.toNat - 48)) 0

/-- `endsL suf cs`: does `cs` end with `suf`?  Models Python `str.endswith`. -/
def endsL (suf cs : List Char) : Bool :=
  suf.reverse.isPrefixOf cs.reverse

/-- Drop the last `n` characters; models Python slicing `value[:-n]`. -/
def dropEnd (n : Nat) (cs : List Char) : List Char :=
  (cs.reverse.drop n).reverse

/-- Exponent part of a Python float literal: either absent, or `e`/`E`
followed by an optional sign and a nonempty run of digits. -/
def expPart : List Char → Option Int
  | [] => some 0
  | c :: rest =>
    if c = 'e' || c = 'E' then
      match rest with
      | '+' :: ds =>
        if ds ≠ [] ∧ ds.all Char.isDigit then some (digitsToNat ds : Int) else none
      | '-' :: ds =>
        if ds ≠ [] ∧ ds.all Char.isDigit then some (-(digitsToNat ds : Int)) else none
      | ds =>
        if ds ≠ [] ∧ ds.all Char.isDigit then some (digitsToNat ds : Int) else none
    else none

/-- Body of a Python float literal (after stripping and sign):
`digits [. digits] [exponent]`, needing at least one digit in the mantissa. -/
def floatCore (cs : List Char) : Option ℚ :=
  match cs.dropWhile Char.isDigit with
  | '.' :: r2 =>
    if cs.takeWhile Char.isDigit = [] ∧ r2.takeWhile Char.isDigit = [] then none
    else
      (expPart (r2.dropWhile Char.isDigit)).map fun e =>
        ((digitsToNat (cs.takeWhile Char.isDigit) : ℚ) +
          (digitsToNat (r2.takeWhile Char.isDigit) : ℚ) /
            10 ^ (r2.takeWhile Char.isDigit).length) * (10 : ℚ) ^ e
  | r1 =>
    if cs.takeWhile Char.isDigit = [] then none
    else (expPart r1).map fun e => (digitsToNat (cs.takeWhile Char.isDigit) : ℚ) * (10 : ℚ) ^ e

/-- The optional sign in front of the float literal body. -/
def signedCore : List Char → Option ℚ
  | [] => floatCore []
  | c :: r =>
    if c = '-' then (floatCore r).map Neg.neg
    else if c = '+' then floatCore r
    else floatCore (c :: r)

/-- Python `float(str)`: strip whitespace, optional sign, decimal literal.
`none` models the `ValueError` raised on a malformed payload.
(The rarely used `inf`/`nan`/underscore spellings are not modelled.) -/
def floatParse (cs : List Char) : Option ℚ :=
  signedCore (pyStrip cs)

/-- The two resource kinds `parse_resource_value` is called with. -/
inductive ResKind where
  | memory
  | cpu
deriving DecidableEq

/-- `audit_pr.py` `parse_resource_value(value, resource_type)`:
memory suffixes are checked in the order Gi, G, Mi, M, Ki, K (binary factors
for all of them, decimal suffixes included); a suffix-less memory value is a
byte count; CPU accepts a trailing `m` for millicores. -/
def parse_resource_value (value : List Char) (rt : ResKind) : Option ℚ :=
  if value = [] then some 0
  else
    let v := pyStrip value
    match rt with
    | .memory =>
      if endsL ['G', 'i'] v then floatParse (dropEnd 2 v)
      else if endsL ['G'] v then floatParse (dropEnd 1 v)
      else if endsL ['M', 'i'] v then (floatParse (dropEnd 2 v)).map (· / 1024)
      else if endsL ['M'] v then (floatParse (dropEnd 1 v)).map (· / 1024)
      else if endsL ['K', 'i'] v then (floatParse (dropEnd 2 v)).map (· / (1024 * 1024))
      else if endsL ['K'] v then (floatParse (dropEnd 1 v)).map (· / (1024 * 1024))
      else (floatParse v).map (· / (1024 * 1024 * 1024))
    | .cpu =>
      if endsL ['m'] v then (floatParse (dropEnd 1 v)).map (· / 1000)
      else floatParse v

/-- The ordered unit table of `generate-report.py` `parse_memory`
(Python dict iteration order = insertion order). -/
def grUnits : List (List Char × ℚ) :=
  [(['K', 'i'], 1024 / 1024 ^ 3), (['M', 'i'], 1024 ^ 2 / 1024 ^ 3),
   (['G', 'i'], 1), (['T', 'i'], 1024 ^ 4 / 1024 ^ 3),
   (['K'], 1000 / 1000 ^ 3), (['M'], 1000 ^ 2 / 1000 ^ 3),
   (['G'], 1), (['T'], 1000 ^ 4 / 1000 ^ 3)]

/-- `generate-report.py` `parse_memory(mem_str)`: first matching suffix of the
unit table wins; a suffix-less value is a byte count divided by `1024^3`. -/
def parse_memory_gr (ms : List Char) : Option ℚ :=
  if ms = [] then some 0
  else
    let v := pyStrip ms
    match grUnits.find? (fun u => endsL u.1 v) with
    | some u => (floatParse (dropEnd u.1.length v)).map (· * u.2)
    | none => (floatParse v).map (· / 1024 ^ 3)

/-- `generate-report.py` `parse_cpu(cpu_str)`. -/
def parse_cpu_gr (cs : List Char) : Option ℚ :=
  if cs = [] then some 0
  else
    let v := pyStrip cs
    if endsL ['m'] v then (floatParse (dropEnd 1 v)).map (· / 1000)
    else floatParse v

/-- The ordered unit table of `analyze-audit.py` `parse_memory` (to bytes). -/
def anUnits : List (List Char × ℚ) :=
  [(['K', 'i'], 1024), (['M', 'i'], 1024 ^ 2), (['G', 'i'], 1024 ^ 3),
   (['T', 'i'], 1024 ^ 4), (['K'], 1000), (['M'], 1000 ^ 2),
   (['G'], 1000 ^ 3), (['T'], 1000 ^ 4)]

/-- `analyze-audit.py` `parse_memory(mem_str)`: converts to a byte count
(no `.strip()` in this one; `float` itself strips). -/
def parse_memory_an (ms : List Char) : Option ℚ :=
  if ms = [] then some 0
  else
    match anUnits.find? (fun u => endsL u.1 ms) with
    | some u => (floatParse (dropEnd u.1.length ms)).map (· * u.2)
    | none => floatParse ms

/-! ### Manifest extraction (`audit_pr.py` `extract_resources_from_yaml`)

The Python code locates fields with `re.search`.  Each pattern is modelled by
an explicit scanning function with the same match semantics (leftmost match,
greedy/lazy behaviour as analysed at each definition). -/

/-- ASCII letter, the regex class `[A-Za-z]`. -/
def isAlphaC (c : Char) : Bool :=
  (65 ≤ c.toNat && c.toNat ≤ 90) || (97 ≤ c.toNat && c.toNat ≤ 122)

/-- The regex class `[a-zA-Z0-9-]` of the name pattern. -/
def isNameChar (c : Char) : Bool :=
  isAlphaC c || c.isDigit || c = '-'

/-- Skip one optional single or double quote, the regex `["\']?`. -/
def stripQuote1 : List Char → List Char
  | [] => []
  | c :: cs => if c = '"' || c = '\'' then cs else c :: cs

/-- Split a document into its lines (Python line structure; `\n` separators). -/
def splitLines : List Char → List (List Char)
  | [] => [[]]
  | c :: cs =>
    if c = '\n' then [] :: splitLines cs
    else
      match splitLines cs with
      | [] => [[c]]
      | l :: ls => (c :: l) :: ls

/-- The document separator `\n---\n` used by `yaml_content.split('\n---\n')`. -/
def sepPat : List Char := toL ("\n---\n")

/-- Find the first occurrence of `sepPat`: returns the part before it and the
rest after it. -/
def splitStep : List Char → Option (List Char × List Char)
  | [] => none
  | c :: cs =>
    if sepPat.isPrefixOf (c :: cs) then some ([], (c :: cs).drop 5)
    else
      match splitStep cs with
      | some (p, r) => some (c :: p, r)
      | none => none

/-- Structural worker for `splitDocs`; the fuel starts at the text length,
which bounds the number of separators, so it never runs out. -/
def splitDocsAux : Nat → List Char → List (List Char)
  | 0, cs => [cs]
  | fuel + 1, cs =>
    match splitStep cs with
    | some (p, r) => p :: splitDocsAux fuel r
    | none => [cs]

/-- Python `yaml_content.split('\n---\n')`. -/
def splitDocs (cs : List Char) : List (List Char) :=
  splitDocsAux cs.length cs

/-- Model of `re.search(r'kind:\s*([A-Za-z]+)', doc)`: at the first occurrence
of `kind:` followed (after greedy whitespace, newlines included) by at least
one letter, capture the maximal run of letters; otherwise continue searching at
later occurrences (regex backtracking). -/
def kindCapture : List Char → Option (List Char)
  | [] => none
  | c :: cs =>
    if (toL ("kind:")).isPrefixOf (c :: cs) then
      let letters := (((c :: cs).drop 5).dropWhile pyWS).takeWhile isAlphaC
      if letters = [] then kindCapture cs else some letters
    else kindCapture cs

/-- Model of `re.search(r'metadata:\s*\n\s*name:\s*["\']?([a-zA-Z0-9-]+)["\']?', doc)`:
the whitespace run after `metadata:` must contain a newline and must be
followed immediately by `name:`; then after whitespace and an optional quote a
nonempty run of `[a-zA-Z0-9-]` is captured.  On a failed capture the search
continues at the next occurrence of `metadata:`. -/
def nameCapture : List Char → Option (List Char)
  | [] => none
  | c :: cs =>
    if (toL ("metadata:")).isPrefixOf (c :: cs) then
      let rest := (c :: cs).drop 9
      let w := rest.takeWhile pyWS
      let r1 := rest.dropWhile pyWS
      if w.contains '\n' && (toL ("name:")).isPrefixOf r1 then
        let cap := (stripQuote1 ((r1.drop 5).dropWhile pyWS)).takeWhile isNameChar
        if cap = [] then nameCapture cs else some cap
      else nameCapture cs
    else nameCapture cs

/-- Does this line contain `requests:` followed only by whitespace?  This is
where the patterns `requests:\s*\n...` can anchor: the `\s*\n` forces the rest
of the line after `requests:` to be whitespace. -/
def lineRequestsTail : List Char → Bool
  | [] => false
  | c :: cs =>
    if (toL ("requests:")).isPrefixOf (c :: cs) then
      ((c :: cs).drop 9).all pyWS || lineRequestsTail cs
    else lineRequestsTail cs

/-- The character class `[^"\'\n]` of the captured value. -/
def valClass (c : Char) : Bool :=
  !(c = '"' || c = '\'' || c = '\n')

/-- Rejoin split lines with `\n` (inverse of `splitLines`); used because the
`\s*` after a key consumes newlines, so a capture can cross into later lines. -/
def joinLines : List (List Char) → List Char
  | [] => []
  | [l] => l
  | l :: ls => l ++ '\n' :: joinLines ls

/-- Backtracking of the greedy `\s*` into its whitespace run `w` when the
capture cannot start after it: the regex retries from the latest whitespace
position whose character is not a newline (spaces/tabs are in `[^"\'\n]`, so
the capture then starts on that whitespace character); `r` is the text after
the run. -/
def wsBacktrack : List Char → List Char → Option (List Char)
  | [], _ => none
  | c :: cs, r =>
    match wsBacktrack cs r with
    | some cap => some cap
    | none => if c ≠ '\n' then some ((c :: (cs ++ r)).takeWhile valClass) else none

/-- The value part `\s*["\']?([^"\'\n]+)` after a key: greedy whitespace
(newlines included, so the value may sit on a later line), an optional quote,
then a nonempty run of `[^"\'\n]`; on failure the `\s*` backtracks into its
whitespace run.  `none` when no capture is possible at this key occurrence. -/
def captureValue (rest : List Char) : Option (List Char) :=
  let w := rest.takeWhile pyWS
  let r := rest.dropWhile pyWS
  let cap := (stripQuote1 r).takeWhile valClass
  if cap ≠ [] then some cap else wsBacktrack w r

/-- Scan lines for the first one starting (after leading whitespace) with the
given key and yielding a value capture.  Models the lazy line group
`(?:[^\n]*\n)*?\s*key:` of the memory/cpu patterns: the earliest matching line
wins; the capture itself runs over the rest of the document (rejoined with
newlines) because the `\s*` after the key crosses newlines; a key occurrence
with no possible capture is skipped (regex backtracking). -/
def keyLineValue (key : List Char) (klen : Nat) : List (List Char) → Option (List Char)
  | [] => none
  | l :: ls =>
    let t := l.dropWhile pyWS
    if key.isPrefixOf t then
      match captureValue (joinLines (t.drop klen :: ls)) with
      | some cap => some cap
      | none => keyLineValue key klen ls
    else keyLineValue key klen ls

/-- Model of `re.search(memory_pattern, doc)` over the document's lines:
anchor at the first `requests:`-with-whitespace-tail line, then search all
following lines for a `memory:` value (the lazy group can skip any number of
lines, so anchoring at the first such line is equivalent). -/
def memCaptureLines : List (List Char) → Option (List Char)
  | [] => none
  | l :: ls =>
    if lineRequestsTail l then keyLineValue (toL ("memory:")) 7 ls
    else memCaptureLines ls

/-- Model of `re.search(cpu_pattern, doc)`, same shape as `memCaptureLines`. -/
def cpuCaptureLines : List (List Char) → Option (List Char)
  | [] => none
  | l :: ls =>
    if lineRequestsTail l then keyLineValue (toL ("cpu:")) 4 ls
    else cpuCaptureLines ls

/-- Model of `re.search(r'(?:^|\n)replicas:\s*(\d+)', doc)`: `replicas:` must
start a line (no indentation allowed); the digits follow after whitespace that
may cross newlines (so `replicas:\n3` captures `3`); an occurrence with no
digits after the whitespace run is skipped (digits are not whitespace, so the
`\s*` cannot backtrack into a match there). -/
def flatReplicas : List (List Char) → Option Nat
  | [] => none
  | l :: ls =>
    if (toL ("replicas:")).isPrefixOf l then
      let ds := ((joinLines (l.drop 9 :: ls)).dropWhile pyWS).takeWhile Char.isDigit
      if ds = [] then flatReplicas ls else some (digitsToNat ds)
    else flatReplicas ls

/-- Model of the unanchored `minReplicas:\s*(\d+)` / `maxReplicas:\s*(\d+)`
searches: first occurrence of the key anywhere, whitespace (newlines included),
then a nonempty digit run; otherwise keep searching. -/
def numAfter (pat : List Char) (plen : Nat) : List Char → Option Nat
  | [] => none
  | c :: cs =>
    if pat.isPrefixOf (c :: cs) then
      let ds := (((c :: cs).drop plen).dropWhile pyWS).takeWhile Char.isDigit
      if ds = [] then numAfter pat plen cs else some (digitsToNat ds)
    else numAfter pat plen cs

/-- One extracted resource record of `extract_resources_from_yaml`. -/
structure ResourceSpecA where
  memory : ℚ
  cpu : ℚ
  min_replicas : Nat
  max_replicas : Nat
  kind : String
deriving DecidableEq

/-- Parsing of one optionally-captured resource value: an absent capture
contributes `0.0`, a malformed one raises (`Except.error` carries the
offending payload, as the Python `ValueError` does). -/
def parseField (v? : Option (List Char)) (rt : ResKind) : Except String ℚ :=
  match v? with
  | some v =>
    match parse_resource_value v rt with
    | some q => .ok q
    | none => .error (String.mk v)
  | none => .ok 0

/-- The replica range of one document: `minReplicas`/`maxReplicas` for an
HPA kind, the anchored flat `replicas` field otherwise, `{1,1}` by default. -/
def replicaRange (rkind : String) (doc : List Char) (ls : List (List Char)) :
    Nat × Nat :=
  if rkind = "HorizontalPodAutoscaler" then
    ((numAfter (toL ("minReplicas:")) 12 doc).getD 1,
     (numAfter (toL ("maxReplicas:")) 12 doc).getD 1)
  else
    match flatReplicas ls with
    | some n => (n, n)
    | none => (1, 1)

/-- Processing of one document of the manifest (the loop body of
`extract_resources_from_yaml`); `Except.error v` models the uncaught
`ValueError` raised by `float(v)` on a malformed captured payload.  Python
parses the memory value first, so its error wins when both are malformed. -/
def extractDoc (file : String) (idx : Nat) (doc : List Char) :
    Except String (Option (String × ResourceSpecA)) :=
  if pyStrip doc = [] then .ok none
  else
    let ls := splitLines doc
    let rname : String :=
      match nameCapture doc with
      | some n => String.mk n
      | none => "resource-" ++ toString idx
    let rkind : String :=
      match kindCapture doc with
      | some k => String.mk k
      | none => "Unknown"
    let memv := memCaptureLines ls
    let cpuv := cpuCaptureLines ls
    if memv.isSome || cpuv.isSome then
      match parseField memv .memory, parseField cpuv .cpu with
      | .ok memory_gb, .ok cpu_cores =>
        .ok (some (rname ++ "@" ++ file,
          ⟨memory_gb, cpu_cores, (replicaRange rkind doc ls).1,
           (replicaRange rkind doc ls).2, rkind⟩))
      | .error e, _ => .error e
      | .ok _, .error e => .error e
    else .ok none

/-- Fold of `extractDoc` over the enumerated documents.  (Python stores the
records in a dict keyed by `name@file`; we keep the insertion order as a
list of key/value pairs.) -/
def extractDocs (file : String) : Nat → List (List Char) →
    Except String (List (String × ResourceSpecA))
  | _, [] => .ok []
  | idx, d :: ds =>
    match extractDoc file idx d with
    | .error e => .error e
    | .ok r =>
      match extractDocs file (idx + 1) ds with
      | .error e => .error e
      | .ok rest =>
        match r with
        | some kv => .ok (kv :: rest)
        | none => .ok rest

/-- `audit_pr.py` `extract_resources_from_yaml(yaml_content, file_path)`. -/
def extract_resources_from_yaml (text : List Char) (file : String) :
    Except String (List (String × ResourceSpecA)) :=
  extractDocs file 0 (splitDocs text)

/-- All memory/cpu payloads captured anywhere in the manifest parse
successfully (the well-formedness condition under which extraction cannot
raise). -/
def docPayloadsOk (doc : List Char) : Bool :=
  (match memCaptureLines (splitLines doc) with
   | some v => (parse_resource_value v .memory).isSome
   | none => true) &&
  (match cpuCaptureLines (splitLines doc) with
   | some v => (parse_resource_value v .cpu).isSome
   | none => true)

/-- Well-formedness of every document of a manifest text. -/
def payloadsWellFormed (text : List Char) : Bool :=
  (splitDocs text).all docPayloadsOk

/-! ### Cost model and PR diff (`audit_pr.py` `analyze_pr_costs`) -/

/-- `MEMORY_COST_PER_GB = 4.0` ($/GB/month). -/
def MEMORY_COST_PER_GB : ℚ := 4

/-- `CPU_COST_PER_CORE = 20.0` ($/vCPU/month). -/
def CPU_COST_PER_CORE : ℚ := 20

/-- `audit_pr.py` `calculate_annual_cost(memory_gb, cpu_cores)`. -/
def calculate_annual_cost (memory_gb cpu_cores : ℚ) : ℚ :=
  (memory_gb * MEMORY_COST_PER_GB + cpu_cores * CPU_COST_PER_CORE) * 12

/-- One record of the `cost_changes` list built by `analyze_pr_costs`. -/
structure CostChange where
  resource : String
  file : String
  old_memory : ℚ
  new_memory : ℚ
  old_cpu : ℚ
  new_cpu : ℚ
  old_min_replicas : Nat
  old_max_replicas : Nat
  new_min_replicas : Nat
  new_max_replicas : Nat
  min_cost_diff : ℚ
  max_cost_diff : ℚ
  has_range : Bool
  kind : String
deriving DecidableEq

/-- The default substituted for a missing side of the diff:
`{"memory": 0, "cpu": 0, "min_replicas": 1, "max_replicas": 1, "kind": "Unknown"}`. -/
def zeroSpec : ResourceSpecA := ⟨0, 0, 1, 1, "Unknown"⟩

/-- Python `resource_name.split("@")[0]`. -/
def keyBaseName (s : String) : String :=
  String.mk (s.toList.takeWhile fun c => c ≠ '@')

/-- The per-identity body of the comparison loop in `analyze_pr_costs`
(lines 205-246): compute per-pod annual costs, scale by the replica range,
and report only when `abs(max_cost_diff) > 1`. -/
def diffEntry (key : String) (file : String) (oldR newR : Option ResourceSpecA) :
    Option CostChange :=
  let o := oldR.getD zeroSpec
  let n := newR.getD zeroSpec
  let old_cost_per_pod := calculate_annual_cost o.memory o.cpu
  let new_cost_per_pod := calculate_annual_cost n.memory n.cpu
  let old_min_cost := old_cost_per_pod * o.min_replicas
  let old_max_cost := old_cost_per_pod * o.max_replicas
  let new_min_cost := new_cost_per_pod * n.min_replicas
  let new_max_cost := new_cost_per_pod * n.max_replicas
  let min_cost_diff := new_min_cost - old_min_cost
  let max_cost_diff := new_max_cost - old_max_cost
  if 1 < |max_cost_diff| then
    some ⟨keyBaseName key, file, o.memory, n.memory, o.cpu, n.cpu,
          o.min_replicas, o.max_replicas, n.min_replicas, n.max_replicas,
          min_cost_diff, max_cost_diff,
          decide (n.min_replicas ≠ n.max_replicas), n.kind⟩
  else none

/-- A resource snapshot: the dict produced by `extract_resources_from_yaml`,
as a key/value list with distinct keys. -/
def Snapshot : Type := List (String × ResourceSpecA)

/-- Dict lookup `snapshot.get(name)`. -/
def lookupSpec (k : String) (s : Snapshot) : Option ResourceSpecA :=
  (List.find? (fun p => p.1 == k) s).map (·.2)

/-- `set(old_resources.keys()) | set(new_resources.keys())` (the iteration
order of a Python set is unspecified; we fix one order, which no claim
depends on). -/
def keysUnion (a b : Snapshot) : List String :=
  (a.map (·.1) ++ b.map (·.1)).dedup

/-- The reported cost change of one identity for one file. -/
def reportedDelta (file : String) (a b : Snapshot) (k : String) : Option CostChange :=
  diffEntry k file (lookupSpec k a) (lookupSpec k b)

/-- The per-file core of `analyze_pr_costs`: compare two extracted snapshots
over the union of their identities. -/
def diffSnapshots (file : String) (a b : Snapshot) : List CostChange :=
  (keysUnion a b).filterMap (reportedDelta file a b)

/-! ### Waste detection (`generate-report.py`) -/

/-- `MEMORY_COST_PER_GB_MONTH = 7.20`. -/
def MEMORY_COST_PER_GB_MONTH : ℚ := 36 / 5

/-- `CPU_COST_PER_VCPU_MONTH = 21.60`. -/
def CPU_COST_PER_VCPU_MONTH : ℚ := 108 / 5

/-- `STORAGE_COST_PER_GB_MONTH = 0.10`. -/
def STORAGE_COST_PER_GB_MONTH : ℚ := 1 / 10

/-- `LB_COST_PER_MONTH = 20.00`. -/
def LB_COST_PER_MONTH : ℚ := 20

/-- `generate-report.py` `calculate_memory_waste(request_gb, limit_gb, usage_gb)`. -/
def calculate_memory_waste (request_gb limit_gb : ℚ) (usage_gb : Option ℚ) : ℚ :=
  if limit_gb = 0 ∨ request_gb = 0 then 0
  else if request_gb * 3 < limit_gb then
    (limit_gb - request_gb * (3 / 2)) * MEMORY_COST_PER_GB_MONTH
  else
    match usage_gb with
    | some u =>
      if 0 < u ∧ u < request_gb * (1 / 5) then
        max 0 (request_gb - u * (3 / 2)) * MEMORY_COST_PER_GB_MONTH
      else 0
    | none => 0

/-- `generate-report.py` `calculate_cpu_waste(request_vcpu, limit_vcpu, usage_vcpu)`. -/
def calculate_cpu_waste (request_vcpu limit_vcpu : ℚ) (usage_vcpu : Option ℚ) : ℚ :=
  if limit_vcpu = 0 ∨ request_vcpu = 0 then 0
  else if request_vcpu * 4 < limit_vcpu then
    (limit_vcpu - request_vcpu * (3 / 2)) * CPU_COST_PER_VCPU_MONTH
  else
    match usage_vcpu with
    | some u =>
      if 0 < u ∧ u < request_vcpu * (1 / 5) then
        max 0 (request_vcpu - u * (3 / 2)) * CPU_COST_PER_VCPU_MONTH
      else 0
    | none => 0

/-- One finding record.  `nspace` stands for the Python key `namespace` (a
Lean keyword).  The display-only formatted strings of the Python `details`
dicts are kept as a plain string/string association list; the waste rules
below leave it empty because no analysed property depends on it. -/
structure FindingR where
  ftype : String
  severity : String
  pod : Option String := none
  nspace : Option String := none
  container : Option String := none
  monthlySavings : ℚ := 0
  podsAffected : Option Nat := none
  resourcesAffected : Option Nat := none
  details : List (String × String) := []
deriving DecidableEq

/-- The three-way severity expression
`'HIGH' if w > 500 else 'MEDIUM' if w > 100 else 'LOW'` used for the
over-provisioned-memory and cpu findings of `analyze_pods`. -/
def sevBucket3 (w : ℚ) : String :=
  if 500 < w then "HIGH" else if 100 < w then "MEDIUM" else "LOW"

/-- The two-way severity expression `'MEDIUM' if w > 100 else 'LOW'` used for
the underutilized-memory finding of `analyze_pods` (it has no HIGH tier). -/
def sevBucket2 (w : ℚ) : String :=
  if 100 < w then "MEDIUM" else "LOW"

/-- The `if mem_waste > 0` block of `analyze_pods` (the finding is always
labelled OVER_PROVISIONED_MEMORY, even when the waste came from the
underutilization rule inside `calculate_memory_waste`). -/
def memOverF (mem_waste : ℚ) (pod ns cname : String) : List FindingR :=
  if 0 < mem_waste then
    [{ ftype := "OVER_PROVISIONED_MEMORY", severity := sevBucket3 mem_waste,
       pod := some pod, nspace := some ns, container := some cname,
       monthlySavings := mem_waste }]
  else []

/-- The `if cpu_waste > 0` block of `analyze_pods`: the label prefers
UNDERUTILIZED_CPU when the usage data shows underutilization.  (The
`is_over_provisioned` local of the Python code is computed but never used,
and is omitted here.) -/
def cpuWasteF (cpu_request : ℚ) (cpu_usage : Option ℚ) (cpu_waste : ℚ)
    (pod ns cname : String) : List FindingR :=
  if 0 < cpu_waste then
    [{ ftype :=
         if (if 0 < cpu_request then
              match cpu_usage with
              | some u => decide (0 < u) && decide (u < cpu_request * (1 / 5))
              | none => false
            else false)
         then "UNDERUTILIZED_CPU" else "OVER_PROVISIONED_CPU",
       severity := sevBucket3 cpu_waste,
       pod := some pod, nspace := some ns, container := some cname,
       monthlySavings := cpu_waste }]
  else []

/-- The separate memory-underutilization block of `analyze_pods` (lines
229-250): only fires when usage is truthy, `usage < request*0.2` and the
earlier `mem_waste` was zero; its severity has no HIGH tier. -/
def memUnderF (mem_request : ℚ) (mem_usage : Option ℚ) (mem_waste : ℚ)
    (pod ns cname : String) : List FindingR :=
  match mem_usage with
  | some u =>
    if u ≠ 0 ∧ 0 < mem_request then
      if u < mem_request * (1 / 5) then
        if mem_waste = 0 then
          [{ ftype := "UNDERUTILIZED_MEMORY",
             severity := sevBucket2 ((mem_request - u * (3 / 2)) * MEMORY_COST_PER_GB_MONTH),
             pod := some pod, nspace := some ns, container := some cname,
             monthlySavings := (mem_request - u * (3 / 2)) * MEMORY_COST_PER_GB_MONTH }]
        else []
      else []
    else []
  | none => []

/-- The waste rules applied to one container by `analyze_pods`
(lines 166-250 of `generate-report.py`), after the resource strings have been
parsed: the three finding blocks in source order. -/
def containerWaste (mem_request mem_limit cpu_request cpu_limit : ℚ)
    (mem_usage cpu_usage : Option ℚ) (pod ns cname : String) : List FindingR :=
  memOverF (calculate_memory_waste mem_request mem_limit mem_usage) pod ns cname ++
  cpuWasteF cpu_request cpu_usage (calculate_cpu_waste cpu_request cpu_limit cpu_usage)
    pod ns cname ++
  memUnderF mem_request mem_usage (calculate_memory_waste mem_request mem_limit mem_usage)
    pod ns cname

/-- One container of the pods JSON: optional name and the `requests` /
`limits` dicts of resource strings. -/
structure ContainerR where
  name : Option String
  requests : List (String × String)
  limits : List (String × String)
deriving DecidableEq

/-- Python `d.get(k, default)` on a string/string dict. -/
def lookupD (l : List (String × String)) (k d : String) : String :=
  ((List.find? (fun p => p.1 == k) l).map (·.2)).getD d

/-- The body of the container loop of `analyze_pods` (lines 152-250): a
container with an empty/missing `requests` dict is recorded for the
missing-requests finding and `continue` skips every waste rule; otherwise the
four resource strings are parsed (`Except.error` models the `ValueError` of a
malformed one) and the waste rules run.  `usage` is the pre-parsed
`(cpu, memory)` entry of `usage_data`, absent when the pod has none. -/
def processContainer (podName ns : String) (usage : Option (ℚ × ℚ))
    (c : ContainerR) :
    Except String (List FindingR × Option (String × String × String)) :=
  if c.requests = [] then
    .ok ([], some (podName, ns, c.name.getD ("unknown")))
  else do
    let mem_request : ℚ ←
      match parse_memory_gr (toL (lookupD c.requests ("memory") ("0"))) with
      | some q => pure q
      | none => throw (lookupD c.requests ("memory") ("0"))
    let mem_limit : ℚ ←
      match parse_memory_gr (toL (lookupD c.limits ("memory") ("0"))) with
      | some q => pure q
      | none => throw (lookupD c.limits ("memory") ("0"))
    let cpu_request : ℚ ←
      match parse_cpu_gr (toL (lookupD c.requests ("cpu") ("0"))) with
      | some q => pure q
      | none => throw (lookupD c.requests ("cpu") ("0"))
    let cpu_limit : ℚ ←
      match parse_cpu_gr (toL (lookupD c.limits ("cpu") ("0"))) with
      | some q => pure q
      | none => throw (lookupD c.limits ("cpu") ("0"))
    pure (containerWaste mem_request mem_limit cpu_request cpu_limit
            (usage.map (·.2)) (usage.map (·.1)) podName ns (c.name.getD ("unknown")),
          none)

/-- One service of the services JSON, as read by `analyze_load_balancers`:
`stype` is `svc.get('spec',{}).get('type','')` and `creationTimestamp` is
`svc.get('metadata',{}).get('creationTimestamp','')`. -/
structure ServiceR where
  name : Option String
  nspace : Option String
  stype : String
  creationTimestamp : String
deriving DecidableEq

/-- `generate-report.py` `analyze_load_balancers`: collect every service of
type LoadBalancer that has a (truthy, i.e. nonempty) creation timestamp, and
emit a single ORPHANED_LB finding when any were collected.  (The per-service
entries of the `details` dict are display-only and elided.) -/
def analyze_load_balancers (svcs : List ServiceR) : List FindingR :=
  let orphaned_lbs := svcs.filterMap fun s =>
    if s.stype = "LoadBalancer" then
      if s.creationTimestamp ≠ "" then
        some (s.name.getD ("unknown"), s.nspace.getD ("default"))
      else none
    else none
  if orphaned_lbs ≠ [] then
    [{ ftype := "ORPHANED_LB", severity := "MEDIUM",
       resourcesAffected := some orphaned_lbs.length,
       monthlySavings := (orphaned_lbs.length : ℚ) * LB_COST_PER_MONTH }]
  else []

/-! ### Aggregation (`generate-report.py` `aggregate_findings`) -/

/-- One display example of an aggregated finding. -/
structure ExampleR where
  pod : Option String
  nspace : Option String
  container : Option String
  wastePerMonth : ℚ
  request : String
  usage : String
  limit : String
deriving DecidableEq

/-- One aggregated finding. -/
structure AggFinding where
  ftype : String
  severity : String
  monthlySavings : ℚ
  description : String
  podsAffected : Option Nat
  resourcesAffected : Option Nat
  examples : Option (List ExampleR)
deriving DecidableEq

/-- `severity_order = {'HIGH': 3, 'MEDIUM': 2, 'LOW': 1}` with `.get(s, 0)`. -/
def severity_order (s : String) : Nat :=
  if s = "HIGH" then 3 else if s = "MEDIUM" then 2 else if s = "LOW" then 1 else 0

/-- Python `max(group, key=...)`: left fold keeping the first element whose
key is maximal (a later element replaces only on a strictly greater key). -/
def pyMaxBySev (x : FindingR) (xs : List FindingR) : FindingR :=
  xs.foldl (fun b a =>
    if severity_order b.severity < severity_order a.severity then a else b) x

/-- The `max_severity` of one group (groups are always nonempty; the `[]`
case is unreachable). -/
def aggSeverity (g : List FindingR) : String :=
  match g with
  | [] => "LOW"
  | x :: xs => (pyMaxBySev x xs).severity

/-- Python truthiness of `f.get('pod')`. -/
def pyTruthyOpt (s : Option String) : Bool :=
  match s with
  | some t => t ≠ ""
  | none => false

/-- The identity string `f"{namespace}/{pod}"` used for the affected count. -/
def keyOfFinding (f : FindingR) : String :=
  f.nspace.getD ("default") ++ "/" ++ f.pod.getD ("unknown")

/-- Stable insertion (descending by key) for the model of Python
`sorted(..., key=..., reverse=True)`: an element goes after every element with
a greater-or-equal key. -/
def insDescBy {α : Type} (key : α → ℚ) (x : α) : List α → List α
  | [] => [x]
  | y :: ys => if key x ≤ key y then y :: insDescBy key x ys else x :: y :: ys

/-- Python `sorted(l, key=key, reverse=True)` (stable, descending). -/
def sortDescBy {α : Type} (key : α → ℚ) (l : List α) : List α :=
  l.foldl (fun acc x => insDescBy key x acc) []

/-- The `descriptions` table of `aggregate_findings`. -/
def aggDescription (t : String) : String :=
  if t = "OVER_PROVISIONED_MEMORY" then "Pods requesting significantly more memory than they use"
  else if t = "OVER_PROVISIONED_CPU" then "Pods requesting significantly more CPU than they use"
  else if t = "UNDERUTILIZED_MEMORY" then "Pods using less than 20% of requested memory"
  else if t = "UNDERUTILIZED_CPU" then "Pods using less than 20% of requested CPU"
  else if t = "NO_REQUESTS" then "Pods without resource requests - causes unpredictable scheduling"
  else if t = "ORPHANED_LB" then "Load balancers with no backend endpoints"
  else if t = "UNBOUND_PV" then "Persistent volumes not bound to any pods"
  else "Issues of type " ++ t

/-- `d.get(k, 'N/A')` on a finding's details dict. -/
def detailGet (f : FindingR) (k : String) : String :=
  ((List.find? (fun p => p.1 == k) f.details).map (·.2)).getD ("N/A")

/-- The reduction of a finding to a display example. -/
def exampleOf (f : FindingR) : ExampleR :=
  ⟨f.pod, f.nspace, f.container, f.monthlySavings,
   detailGet f ("request"), detailGet f ("usage"), detailGet f ("limit")⟩

/-- The group keys in first-appearance order (Python dict insertion order). -/
def aggTypes (findings : List FindingR) : List String :=
  (findings.map (·.ftype)).dedup

/-- The group of findings of one type. -/
def aggGroup (findings : List FindingR) (t : String) : List FindingR :=
  findings.filter (fun f => f.ftype == t)

/-- Total savings of one group. -/
def aggTotal (findings : List FindingR) (t : String) : ℚ :=
  ((aggGroup findings t).map (·.monthlySavings)).sum

/-- Distinct `namespace/pod` count over the group members with a truthy pod. -/
def aggPodsAffected (findings : List FindingR) (t : String) : Nat :=
  (((aggGroup findings t).filter (fun f => pyTruthyOpt f.pod)).map keyOfFinding).dedup.length

/-- The aggregated finding of one group (the body of the `for ftype, group`
loop of `aggregate_findings`). -/
def aggOne (findings : List FindingR) (t : String) : AggFinding :=
  let group := aggGroup findings t
  let sorted_examples := (sortDescBy (·.monthlySavings) group).take 5
  let isResourceType := t = "ORPHANED_LB" ∨ t = "UNBOUND_PV"
  let base : AggFinding :=
    { ftype := t, severity := aggSeverity group,
      monthlySavings := aggTotal findings t,
      description := aggDescription t,
      podsAffected := if isResourceType then none else some (aggPodsAffected findings t),
      resourcesAffected := if isResourceType then some group.length else none,
      examples := none }
  match sorted_examples with
  | [] => base
  | e :: _ =>
    if pyTruthyOpt e.pod then
      { base with examples := some (sorted_examples.map exampleOf) }
    else base

/-- `generate-report.py` `aggregate_findings(findings)`. -/
def aggregate_findings (findings : List FindingR) : List AggFinding :=
  if findings = [] then []
  else sortDescBy (·.monthlySavings) ((aggTypes findings).map (aggOne findings))

/-! ### Claim-support definitions -/

/-- The severity string with a given `severity_order` value (for relating the
first-maximal element Python's `max` picks to the order-insensitive maximum). -/
def sevOfOrder (k : Nat) : String :=
  if k = 3 then "HIGH" else if k = 2 then "MEDIUM" else "LOW"

/-- The order-insensitive content of `aggregate_findings`: the multiset of
group types, and for each type the group total, group size, distinct affected
pod count and rolled-up severity. -/
def aggInvariant (f g : List FindingR) : Prop :=
  (aggTypes f).Perm (aggTypes g) ∧
  ∀ t : String,
    aggTotal f t = aggTotal g t ∧
    (aggGroup f t).length = (aggGroup g t).length ∧
    aggPodsAffected f t = aggPodsAffected g t ∧
    aggSeverity (aggGroup f t) = aggSeverity (aggGroup g t)

/-- A manifest document declaring `replicas: 3` indented under `spec:`
(the usual Kubernetes layout), with a requests block. -/
def c8doc : List Char :=
  toL ("kind: Deployment\nmetadata:\n  name: web\nspec:\n  replicas: 3\n  template:\n    resources:\n      requests:\n        memory: 1Gi\n")

/-- A manifest document with an unindented `replicas:` line. -/
def c8wdoc : List Char :=
  toL ("kind: Deployment\nreplicas: 3\nrequests:\n  cpu: 1\n")

/-- A snapshot with one identity spanning an autoscaling replica range. -/
def c3A : Snapshot := [("web@f", ⟨1, 0, 1, 10, "Deployment"⟩)]

/-- The empty snapshot (the identity was removed). -/
def c3B : Snapshot := []

/-- A manifest whose memory payload is not numeric. -/
def c4text : List Char := toL ("requests:\n  memory: abc")

/-- The cost change `diff(c3A, c3B)` reports for `web@f`. -/
def c3cAB : CostChange :=
  ⟨"web", "f", 1, 0, 0, 0, 1, 10, 1, 1, -48, -480, false, "Unknown"⟩

/-- Two findings of the same type with equal savings but different pods. -/
def c9f1 : FindingR :=
  { ftype := "OVER_PROVISIONED_MEMORY", severity := "LOW", pod := some ("a"),
    nspace := some ("ns"), container := some ("c"), monthlySavings := 10 }

/-- See `c9f1`. -/
def c9f2 : FindingR :=
  { ftype := "OVER_PROVISIONED_MEMORY", severity := "LOW", pod := some ("b"),
    nspace := some ("ns"), container := some ("c"), monthlySavings := 10 }

/-- Two findings of different types and severities, for the C9 witness. -/
def c9g1 : FindingR :=
  { ftype := "OVER_PROVISIONED_CPU", severity := "HIGH", pod := some ("a"),
    nspace := some ("ns"), container := some ("c"), monthlySavings := 700 }

/-- See `c9g1`. -/
def c9g2 : FindingR :=
  { ftype := "UNDERUTILIZED_MEMORY", severity := "MEDIUM", pod := some ("b"),
    nspace := some ("ns"), container := some ("c"), monthlySavings := 150 }

/-! ### Generic string lemmas -/

theorem dropWhile_of_all_neg {p : Char → Bool} {l : List Char}
    (h : ∀ c ∈ l, p c = false) : l.dropWhile p = l := by
  cases l with
  | nil => rfl
  | cons a l =>
    rw [List.dropWhile_cons, if_neg]
    simp [h a (by simp)]

theorem pyStrip_clean {l : List Char} (h : ∀ c ∈ l, pyWS c = false) :
    pyStrip l = l := by
  unfold pyStrip
  rw [dropWhile_of_all_neg h, dropWhile_of_all_neg (by simpa using h),
    List.reverse_reverse]

theorem mem_pyStrip {c : Char} {l : List Char} (h : c ∈ pyStrip l) : c ∈ l := by
  unfold pyStrip at h
  rw [List.mem_reverse] at h
  have h2 := (List.dropWhile_sublist pyWS).mem h
  rw [List.mem_reverse] at h2
  exact (List.dropWhile_sublist pyWS).mem h2

theorem mem_dropEnd {c : Char} {n : Nat} {l : List Char} (h : c ∈ dropEnd n l) :
    c ∈ l := by
  unfold dropEnd at h
  rw [List.mem_reverse] at h
  have h2 := (List.drop_sublist n l.reverse).mem h
  rwa [List.mem_reverse] at h2

theorem endsL_append_self (suf s : List Char) : endsL suf (s ++ suf) = true := by
  unfold endsL
  rw [List.reverse_append]
  exact List.isPrefixOf_iff_prefix.mpr (List.prefix_append _ _)

theorem endsL_last_ne {c d : Char} (hcd : (c == d) = false) (l s : List Char) :
    endsL (l ++ [c]) (s ++ [d]) = false := by
  unfold endsL
  rw [List.reverse_append, List.reverse_append]
  show (c :: l.reverse).isPrefixOf (d :: s.reverse) = false
  rw [show (c :: l.reverse).isPrefixOf (d :: s.reverse)
        = (c == d && l.reverse.isPrefixOf s.reverse) from rfl, hcd]
  rfl

theorem dropEnd_append (s suf : List Char) : dropEnd suf.length (s ++ suf) = s := by
  unfold dropEnd
  rw [List.reverse_append, ← List.length_reverse suf, List.drop_left,
    List.reverse_reverse]

/-! ### Nonnegativity of the float literal parser -/

theorem floatCore_nonneg {cs : List Char} {q : ℚ} (h : floatCore cs = some q) :
    0 ≤ q := by
  unfold floatCore at h
  split at h
  · split at h
    · exact absurd h (by simp)
    · obtain ⟨e, -, rfl⟩ := by simpa using h
      positivity
  · split at h
    · exact absurd h (by simp)
    · obtain ⟨e, -, rfl⟩ := by simpa using h
      positivity

theorem floatParse_nonneg {cs : List Char} {q : ℚ} (hm : '-' ∉ cs)
    (h : floatParse cs = some q) : 0 ≤ q := by
  unfold floatParse at h
  cases hps : pyStrip cs with
  | nil =>
    rw [hps] at h
    simp only [signedCore] at h
    exact floatCore_nonneg h
  | cons c r =>
    rw [hps] at h
    simp only [signedCore] at h
    by_cases hc : c = '-'
    · exact absurd (mem_pyStrip (hps ▸ (hc ▸ List.mem_cons_self c r))) hm
    · rw [if_neg hc] at h
      by_cases hp : c = '+'
      · rw [if_pos hp] at h
        exact floatCore_nonneg h
      · rw [if_neg hp] at h
        exact floatCore_nonneg h

theorem grUnits_pos : ∀ u ∈ grUnits, (0 : ℚ) < u.2 := by
  simp only [grUnits, List.forall_mem_cons, List.forall_mem_nil]
  norm_num

theorem anUnits_pos : ∀ u ∈ anUnits, (0 : ℚ) < u.2 := by
  simp only [anUnits, List.forall_mem_cons, List.forall_mem_nil]
  norm_num

theorem parse_resource_value_nonneg {s : List Char} {rt : ResKind} {q : ℚ}
    (hm : '-' ∉ s) (h : parse_resource_value s rt = some q) : 0 ≤ q := by
  unfold parse_resource_value at h
  by_cases hs : s = []
  · rw [if_pos hs] at h
    obtain rfl : (0 : ℚ) = q := by simpa using h
    exact le_refl 0
  · rw [if_neg hs] at h
    have hstrip : '-' ∉ pyStrip s := fun hc => hm (mem_pyStrip hc)
    have hdrop : ∀ n : Nat, '-' ∉ dropEnd n (pyStrip s) :=
      fun n hc => hm (mem_pyStrip (mem_dropEnd hc))
    cases rt with
    | memory =>
      simp only at h
      split_ifs at h
      all_goals
        first
        | exact floatParse_nonneg (hdrop _) h
        | (obtain ⟨x, hx, rfl⟩ := by simpa using h
           exact div_nonneg (floatParse_nonneg (hdrop _) hx) (by norm_num))
        | (obtain ⟨x, hx, rfl⟩ := by simpa using h
           exact div_nonneg (floatParse_nonneg hstrip hx) (by norm_num))
    | cpu =>
      simp only at h
      split_ifs at h
      · obtain ⟨x, hx, rfl⟩ := by simpa using h
        exact div_nonneg (floatParse_nonneg (hdrop _) hx) (by norm_num)
      · exact floatParse_nonneg hstrip h

theorem parse_memory_gr_nonneg {s : List Char} {q : ℚ}
    (hm : '-' ∉ s) (h : parse_memory_gr s = some q) : 0 ≤ q := by
  unfold parse_memory_gr at h
  by_cases hs : s = []
  · rw [if_pos hs] at h
    obtain rfl : (0 : ℚ) = q := by simpa using h
    exact le_refl 0
  · rw [if_neg hs] at h
    have hdrop : ∀ n : Nat, '-' ∉ dropEnd n (pyStrip s) :=
      fun n hc => hm (mem_pyStrip (mem_dropEnd hc))
    simp only at h
    cases hf : grUnits.find? (fun u => endsL u.1 (pyStrip s)) with
    | some u =>
      rw [hf] at h
      obtain ⟨x, hx, rfl⟩ := by simpa using h
      exact mul_nonneg (floatParse_nonneg (hdrop _) hx)
        (grUnits_pos u (List.mem_of_find?_eq_some hf)).le
    | none =>
      rw [hf] at h
      obtain ⟨x, hx, rfl⟩ := by simpa using h
      exact div_nonneg (floatParse_nonneg (fun hc => hm (mem_pyStrip hc)) hx) (by norm_num)

theorem parse_cpu_gr_nonneg {s : List Char} {q : ℚ}
    (hm : '-' ∉ s) (h : parse_cpu_gr s = some q) : 0 ≤ q := by
  unfold parse_cpu_gr at h
  by_cases hs : s = []
  · rw [if_pos hs] at h
    obtain rfl : (0 : ℚ) = q := by simpa using h
    exact le_refl 0
  · rw [if_neg hs] at h
    simp only at h
    split_ifs at h
    · obtain ⟨x, hx, rfl⟩ := by simpa using h
      exact div_nonneg (floatParse_nonneg (fun hc => hm (mem_pyStrip (mem_dropEnd hc))) hx)
        (by norm_num)
    · exact floatParse_nonneg (fun hc => hm (mem_pyStrip hc)) h

end Wozz

namespace Wozz

/-! ### Claim C1 -/

theorem c1_clean_append {s : List Char} (hclean : ∀ c ∈ s, pyWS c = false)
    {c : Char} (hc : pyWS c = false) : ∀ x ∈ s ++ [c], pyWS x = false := by
  intro x hx
  rcases List.mem_append.1 hx with h | h
  · exact hclean x h
  · rw [List.mem_singleton.1 h]
    exact hc

/-- Claim C1 (corrected).  The decimal memory suffixes do not follow the
spec's "base-1000 normalized into GiB" rule in any of the three parsers.  The
actual factors, for any clean numeric payload `s` with value `v`:
`audit_pr.parse_resource_value` treats `K`, `M`, `G` with the same binary
factors as `Ki`, `Mi`, `Gi` (`v/2^20`, `v/2^10`, `v`);
`generate-report.parse_memory` uses base-1000 factors normalized into the
decimal GB unit for `K`, `M`, `T` (`v/10^6`, `v/10^3`, `v*10^3`) but maps `G`
to `v` exactly; `analyze-audit.parse_memory` converts to bytes with pure
base-1000 factors (`v*10^3` … `v*10^12`). -/
theorem c1_decimal_suffix_factors (s : List Char) (v : ℚ)
    (hclean : ∀ c ∈ s, pyWS c = false) (hv : floatParse s = some v) :
    parse_resource_value (s ++ ['K']) .memory = some (v / (1024 * 1024)) ∧
    parse_resource_value (s ++ ['M']) .memory = some (v / 1024) ∧
    parse_resource_value (s ++ ['G']) .memory = some v ∧
    parse_memory_gr (s ++ ['K']) = some (v * (1000 / 1000 ^ 3)) ∧
    parse_memory_gr (s ++ ['M']) = some (v * (1000 ^ 2 / 1000 ^ 3)) ∧
    parse_memory_gr (s ++ ['G']) = some (v * 1) ∧
    parse_memory_gr (s ++ ['T']) = some (v * (1000 ^ 4 / 1000 ^ 3)) ∧
    parse_memory_an (s ++ ['K']) = some (v * 1000) ∧
    parse_memory_an (s ++ ['M']) = some (v * (1000 ^ 2)) ∧
    parse_memory_an (s ++ ['G']) = some (v * (1000 ^ 3)) ∧
    parse_memory_an (s ++ ['T']) = some (v * (1000 ^ 4)) := by
  have hK : pyStrip (s ++ ['K']) = s ++ ['K'] :=
    pyStrip_clean (c1_clean_append hclean (by decide))
  have hM : pyStrip (s ++ ['M']) = s ++ ['M'] :=
    pyStrip_clean (c1_clean_append hclean (by decide))
  have hG : pyStrip (s ++ ['G']) = s ++ ['G'] :=
    pyStrip_clean (c1_clean_append hclean (by decide))
  have hT : pyStrip (s ++ ['T']) = s ++ ['T'] :=
    pyStrip_clean (c1_clean_append hclean (by decide))
  have d1 : ∀ c : Char, dropEnd 1 (s ++ [c]) = s := fun c => dropEnd_append s [c]
  have eSelf : ∀ c : Char, endsL [c] (s ++ [c]) = true := fun c => endsL_append_self [c] s
  have eNe : ∀ (l : List Char) (c d : Char), (c == d) = false →
      endsL (l ++ [c]) (s ++ [d]) = false := fun l c d h => endsL_last_ne h l s
  refine ⟨?_, ?_, ?_, ?_, ?_, ?_, ?_, ?_, ?_, ?_, ?_⟩
  · have e1 : endsL ['G', 'i'] (s ++ ['K']) = false := eNe ['G'] 'i' 'K' (by decide)
    have e2 : endsL ['G'] (s ++ ['K']) = false := eNe [] 'G' 'K' (by decide)
    have e3 : endsL ['M', 'i'] (s ++ ['K']) = false := eNe ['M'] 'i' 'K' (by decide)
    have e4 : endsL ['M'] (s ++ ['K']) = false := eNe [] 'M' 'K' (by decide)
    have e5 : endsL ['K', 'i'] (s ++ ['K']) = false := eNe ['K'] 'i' 'K' (by decide)
    simp only [parse_resource_value, hK, e1, e2, e3, e4, e5, eSelf 'K', d1,
      if_true, if_false, Bool.false_eq_true, hv, Option.map_some]
    simp [hv, d1 'K']
  · have e1 : endsL ['G', 'i'] (s ++ ['M']) = false := eNe ['G'] 'i' 'M' (by decide)
    have e2 : endsL ['G'] (s ++ ['M']) = false := eNe [] 'G' 'M' (by decide)
    have e3 : endsL ['M', 'i'] (s ++ ['M']) = false := eNe ['M'] 'i' 'M' (by decide)
    simp only [parse_resource_value, hM, e1, e2, e3, eSelf 'M', if_true, if_false,
      Bool.false_eq_true]
    simp [hv, d1 'M']
  · have e1 : endsL ['G', 'i'] (s ++ ['G']) = false := eNe ['G'] 'i' 'G' (by decide)
    simp only [parse_resource_value, hG, e1, eSelf 'G', if_true, if_false,
      Bool.false_eq_true]
    simp [hv, d1 'G']
  · have e1 : endsL ['K', 'i'] (s ++ ['K']) = false := eNe ['K'] 'i' 'K' (by decide)
    have e2 : endsL ['M', 'i'] (s ++ ['K']) = false := eNe ['M'] 'i' 'K' (by decide)
    have e3 : endsL ['G', 'i'] (s ++ ['K']) = false := eNe ['G'] 'i' 'K' (by decide)
    have e4 : endsL ['T', 'i'] (s ++ ['K']) = false := eNe ['T'] 'i' 'K' (by decide)
    simp only [parse_memory_gr, hK, grUnits]
    rw [List.find?_cons_of_neg _ (by simp [e1]), List.find?_cons_of_neg _ (by simp [e2]),
      List.find?_cons_of_neg _ (by simp [e3]), List.find?_cons_of_neg _ (by simp [e4]),
      List.find?_cons_of_pos _ (by simp [eSelf 'K'])]
    simp [hv, d1 'K']
  · have e1 : endsL ['K', 'i'] (s ++ ['M']) = false := eNe ['K'] 'i' 'M' (by decide)
    have e2 : endsL ['M', 'i'] (s ++ ['M']) = false := eNe ['M'] 'i' 'M' (by decide)
    have e3 : endsL ['G', 'i'] (s ++ ['M']) = false := eNe ['G'] 'i' 'M' (by decide)
    have e4 : endsL ['T', 'i'] (s ++ ['M']) = false := eNe ['T'] 'i' 'M' (by decide)
    have e5 : endsL ['K'] (s ++ ['M']) = false := eNe [] 'K' 'M' (by decide)
    simp only [parse_memory_gr, hM, grUnits]
    rw [List.find?_cons_of_neg _ (by simp [e1]), List.find?_cons_of_neg _ (by simp [e2]),
      List.find?_cons_of_neg _ (by simp [e3]), List.find?_cons_of_neg _ (by simp [e4]),
      List.find?_cons_of_neg _ (by simp [e5]), List.find?_cons_of_pos _ (by simp [eSelf 'M'])]
    simp [hv, d1 'M']
  · have e1 : endsL ['K', 'i'] (s ++ ['G']) = false := eNe ['K'] 'i' 'G' (by decide)
    have e2 : endsL ['M', 'i'] (s ++ ['G']) = false := eNe ['M'] 'i' 'G' (by decide)
    have e3 : endsL ['G', 'i'] (s ++ ['G']) = false := eNe ['G'] 'i' 'G' (by decide)
    have e4 : endsL ['T', 'i'] (s ++ ['G']) = false := eNe ['T'] 'i' 'G' (by decide)
    have e5 : endsL ['K'] (s ++ ['G']) = false := eNe [] 'K' 'G' (by decide)
    have e6 : endsL ['M'] (s ++ ['G']) = false := eNe [] 'M' 'G' (by decide)
    simp only [parse_memory_gr, hG, grUnits]
    rw [List.find?_cons_of_neg _ (by simp [e1]), List.find?_cons_of_neg _ (by simp [e2]),
      List.find?_cons_of_neg _ (by simp [e3]), List.find?_cons_of_neg _ (by simp [e4]),
      List.find?_cons_of_neg _ (by simp [e5]), List.find?_cons_of_neg _ (by simp [e6]),
      List.find?_cons_of_pos _ (by simp [eSelf 'G'])]
    simp [hv, d1 'G']
  · have e1 : endsL ['K', 'i'] (s ++ ['T']) = false := eNe ['K'] 'i' 'T' (by decide)
    have e2 : endsL ['M', 'i'] (s ++ ['T']) = false := eNe ['M'] 'i' 'T' (by decide)
    have e3 : endsL ['G', 'i'] (s ++ ['T']) = false := eNe ['G'] 'i' 'T' (by decide)
    have e4 : endsL ['T', 'i'] (s ++ ['T']) = false := eNe ['T'] 'i' 'T' (by decide)
    have e5 : endsL ['K'] (s ++ ['T']) = false := eNe [] 'K' 'T' (by decide)
    have e6 : endsL ['M'] (s ++ ['T']) = false := eNe [] 'M' 'T' (by decide)
    have e7 : endsL ['G'] (s ++ ['T']) = false := eNe [] 'G' 'T' (by decide)
    simp only [parse_memory_gr, hT, grUnits]
    rw [List.find?_cons_of_neg _ (by simp [e1]), List.find?_cons_of_neg _ (by simp [e2]),
      List.find?_cons_of_neg _ (by simp [e3]), List.find?_cons_of_neg _ (by simp [e4]),
      List.find?_cons_of_neg _ (by simp [e5]), List.find?_cons_of_neg _ (by simp [e6]),
      List.find?_cons_of_neg _ (by simp [e7]), List.find?_cons_of_pos _ (by simp [eSelf 'T'])]
    simp [hv, d1 'T']
  · have e1 : endsL ['K', 'i'] (s ++ ['K']) = false := eNe ['K'] 'i' 'K' (by decide)
    have e2 : endsL ['M', 'i'] (s ++ ['K']) = false := eNe ['M'] 'i' 'K' (by decide)
    have e3 : endsL ['G', 'i'] (s ++ ['K']) = false := eNe ['G'] 'i' 'K' (by decide)
    have e4 : endsL ['T', 'i'] (s ++ ['K']) = false := eNe ['T'] 'i' 'K' (by decide)
    simp only [parse_memory_an, anUnits]
    rw [List.find?_cons_of_neg _ (by simp [e1]), List.find?_cons_of_neg _ (by simp [e2]),
      List.find?_cons_of_neg _ (by simp [e3]), List.find?_cons_of_neg _ (by simp [e4]),
      List.find?_cons_of_pos _ (by simp [eSelf 'K'])]
    simp [hv, d1 'K']
  · have e1 : endsL ['K', 'i'] (s ++ ['M']) = false := eNe ['K'] 'i' 'M' (by decide)
    have e2 : endsL ['M', 'i'] (s ++ ['M']) = false := eNe ['M'] 'i' 'M' (by decide)
    have e3 : endsL ['G', 'i'] (s ++ ['M']) = false := eNe ['G'] 'i' 'M' (by decide)
    have e4 : endsL ['T', 'i'] (s ++ ['M']) = false := eNe ['T'] 'i' 'M' (by decide)
    have e5 : endsL ['K'] (s ++ ['M']) = false := eNe [] 'K' 'M' (by decide)
    simp only [parse_memory_an, anUnits]
    rw [List.find?_cons_of_neg _ (by simp [e1]), List.find?_cons_of_neg _ (by simp [e2]),
      List.find?_cons_of_neg _ (by simp [e3]), List.find?_cons_of_neg _ (by simp [e4]),
      List.find?_cons_of_neg _ (by simp [e5]), List.find?_cons_of_pos _ (by simp [eSelf 'M'])]
    simp [hv, d1 'M']
  · have e1 : endsL ['K', 'i'] (s ++ ['G']) = false := eNe ['K'] 'i' 'G' (by decide)
    have e2 : endsL ['M', 'i'] (s ++ ['G']) = false := eNe ['M'] 'i' 'G' (by decide)
    have e3 : endsL ['G', 'i'] (s ++ ['G']) = false := eNe ['G'] 'i' 'G' (by decide)
    have e4 : endsL ['T', 'i'] (s ++ ['G']) = false := eNe ['T'] 'i' 'G' (by decide)
    have e5 : endsL ['K'] (s ++ ['G']) = false := eNe [] 'K' 'G' (by decide)
    have e6 : endsL ['M'] (s ++ ['G']) = false := eNe [] 'M' 'G' (by decide)
    simp only [parse_memory_an, anUnits]
    rw [List.find?_cons_of_neg _ (by simp [e1]), List.find?_cons_of_neg _ (by simp [e2]),
      List.find?_cons_of_neg _ (by simp [e3]), List.find?_cons_of_neg _ (by simp [e4]),
      List.find?_cons_of_neg _ (by simp [e5]), List.find?_cons_of_neg _ (by simp [e6]),
      List.find?_cons_of_pos _ (by simp [eSelf 'G'])]
    simp [hv, d1 'G']
  · have e1 : endsL ['K', 'i'] (s ++ ['T']) = false := eNe ['K'] 'i' 'T' (by decide)
    have e2 : endsL ['M', 'i'] (s ++ ['T']) = false := eNe ['M'] 'i' 'T' (by decide)
    have e3 : endsL ['G', 'i'] (s ++ ['T']) = false := eNe ['G'] 'i' 'T' (by decide)
    have e4 : endsL ['T', 'i'] (s ++ ['T']) = false := eNe ['T'] 'i' 'T' (by decide)
    have e5 : endsL ['K'] (s ++ ['T']) = false := eNe [] 'K' 'T' (by decide)
    have e6 : endsL ['M'] (s ++ ['T']) = false := eNe [] 'M' 'T' (by decide)
    have e7 : endsL ['G'] (s ++ ['T']) = false := eNe [] 'G' 'T' (by decide)
    simp only [parse_memory_an, anUnits]
    rw [List.find?_cons_of_neg _ (by simp [e1]), List.find?_cons_of_neg _ (by simp [e2]),
      List.find?_cons_of_neg _ (by simp [e3]), List.find?_cons_of_neg _ (by simp [e4]),
      List.find?_cons_of_neg _ (by simp [e5]), List.find?_cons_of_neg _ (by simp [e6]),
      List.find?_cons_of_neg _ (by simp [e7]), List.find?_cons_of_pos _ (by simp [eSelf 'T'])]
    simp [hv, d1 'T']

end Wozz

namespace Wozz

/-- Witness for Claim C1's corrected factor table at payload `1`. -/
theorem c1_witness :
    parse_resource_value (['1'] ++ ['M']) .memory = some ((1 : ℚ) / 1024) ∧
    parse_memory_gr (['1'] ++ ['K']) = some ((1 : ℚ) * (1000 / 1000 ^ 3)) ∧
    parse_memory_an (['1'] ++ ['T']) = some ((1 : ℚ) * (1000 ^ 4)) := by
  have hv : floatParse ['1'] = some 1 := by
    simp +decide [floatParse, pyStrip, pyWS, signedCore, floatCore, expPart, digitsToNat]
  have hc := c1_decimal_suffix_factors ['1'] 1 (by decide) hv
  exact ⟨hc.2.1, hc.2.2.2.1, hc.2.2.2.2.2.2.2.2.2.2⟩

/-- Counterexample to Claim C1 as stated: the spec asserts
`parseMemory("1G") = 10^9 / 2^30` GiB, but `generate-report.py` returns `1.0`. -/
theorem c1_counterexample :
    parse_memory_gr (toL ("1G")) = some 1 ∧ (1 : ℚ) ≠ 10 ^ 9 / 2 ^ 30 := by
  constructor
  · simp +decide [parse_memory_gr, grUnits, pyStrip, pyWS, endsL, dropEnd,
      floatParse, signedCore, floatCore, expPart, digitsToNat, toL]
  · norm_num

/-! ### Claim C2 -/

/-- Claim C2 (corrected): the parsers return a non-negative quantity for every
input whose payload carries no minus sign; an input with a negative numeric
payload is parsed through unguarded and yields a negative value (see the
counterexample), so the original "never returns a negative value" fails. -/
theorem c2_parsers_nonneg_without_minus :
    (∀ (s : List Char) (q : ℚ), '-' ∉ s →
      parse_resource_value s .memory = some q → 0 ≤ q) ∧
    (∀ (s : List Char) (q : ℚ), '-' ∉ s →
      parse_resource_value s .cpu = some q → 0 ≤ q) ∧
    (∀ (s : List Char) (q : ℚ), '-' ∉ s → parse_memory_gr s = some q → 0 ≤ q) ∧
    (∀ (s : List Char) (q : ℚ), '-' ∉ s → parse_cpu_gr s = some q → 0 ≤ q) :=
  ⟨fun _ _ hm h => parse_resource_value_nonneg hm h,
   fun _ _ hm h => parse_resource_value_nonneg hm h,
   fun _ _ hm h => parse_memory_gr_nonneg hm h,
   fun _ _ hm h => parse_cpu_gr_nonneg hm h⟩

/-- Witness for Claim C2 at the input `2Gi`. -/
theorem c2_witness :
    parse_resource_value (toL ("2Gi")) .memory = some 2 ∧ (0 : ℚ) ≤ 2 := by
  have hp : parse_resource_value (toL ("2Gi")) .memory = some 2 := by
    simp +decide [parse_resource_value, pyStrip, pyWS, endsL, dropEnd,
      floatParse, signedCore, floatCore, expPart, digitsToNat, toL]
  exact ⟨hp, c2_parsers_nonneg_without_minus.1 (toL ("2Gi")) 2 (by decide) hp⟩

/-- Counterexample to Claim C2 as stated: the input `-1Gi` parses to the
negative quantity `-1` instead of a non-negative value, `0.0`, or a failure. -/
theorem c2_counterexample :
    parse_memory_gr (toL ("-1Gi")) = some (-1) ∧ ¬ ((0 : ℚ) ≤ -1) := by
  constructor
  · simp +decide [parse_memory_gr, grUnits, pyStrip, pyWS, endsL, dropEnd,
      floatParse, signedCore, floatCore, expPart, digitsToNat, toL]
  · norm_num

end Wozz

namespace Wozz

/-! ### Claim C3 -/

theorem diffEntry_swap (key file : String) (x y : Option ResourceSpecA)
    (c : CostChange) (h : diffEntry key file x y = some c) :
    ∃ c2, diffEntry key file y x = some c2 ∧
      c2.max_cost_diff = -c.max_cost_diff ∧
      c2.min_cost_diff = -c.min_cost_diff := by
  simp only [diffEntry] at h ⊢
  split at h
  case isTrue hc =>
    obtain rfl := Option.some_inj.1 h
    rw [if_pos (by rwa [← abs_neg, neg_sub] at hc)]
    exact ⟨_, rfl, by simp, by simp [neg_sub]⟩
  case isFalse hc => exact absurd h (by simp)

theorem mem_keysUnion_symm {a b : Snapshot} {k : String}
    (h : k ∈ keysUnion a b) : k ∈ keysUnion b a := by
  unfold keysUnion at h ⊢
  rw [List.mem_dedup, List.mem_append] at h ⊢
  exact h.symm

/-- Claim C3 (corrected).  Swapping the snapshots negates each end of the cost
range but does not flip the ends: for every identity reported by
`diff(A,B)`, `diff(B,A)` reports it with `maxAnnualDelta` negated to the
*max* end (not the min end) and `minAnnualDelta` negated to the min end.  The
claimed cross-relation `diff(A,B).max = -diff(B,A).min` fails as soon as the
replica range is non-degenerate (see the counterexample). -/
theorem c3_diff_negates_like_ends (file : String) (a b : Snapshot) (k : String)
    (c : CostChange) (h : reportedDelta file a b k = some c)
    (hk : k ∈ keysUnion a b) :
    c ∈ diffSnapshots file a b ∧
    (reportedDelta file b a k).map (·.max_cost_diff) = some (-c.max_cost_diff) ∧
    (reportedDelta file b a k).map (·.min_cost_diff) = some (-c.min_cost_diff) ∧
    k ∈ keysUnion b a := by
  obtain ⟨c2, h2, hmax, hmin⟩ := diffEntry_swap k file _ _ c h
  have h2' : reportedDelta file b a k = some c2 := h2
  refine ⟨List.mem_filterMap.2 ⟨k, hk, h⟩, ?_, ?_, mem_keysUnion_symm hk⟩
  · rw [h2']
    simp [hmax]
  · rw [h2']
    simp [hmin]

end Wozz

namespace Wozz

/-- Witness for Claim C3 on the concrete snapshot pair `c3A`, `c3B`. -/
theorem c3_witness :
    c3cAB ∈ diffSnapshots ("f") c3A c3B ∧
    (reportedDelta ("f") c3B c3A ("web@f")).map (·.max_cost_diff) =
      some (-c3cAB.max_cost_diff) ∧
    (reportedDelta ("f") c3B c3A ("web@f")).map (·.min_cost_diff) =
      some (-c3cAB.min_cost_diff) ∧
    ("web@f") ∈ keysUnion c3B c3A := by
  have h : reportedDelta ("f") c3A c3B ("web@f") = some c3cAB := by
    simp only [reportedDelta, diffEntry, lookupSpec, c3A, c3B, c3cAB, zeroSpec,
      calculate_annual_cost, MEMORY_COST_PER_GB, CPU_COST_PER_CORE, keyBaseName,
      List.find?, toL]
    norm_num
    all_goals decide
  exact c3_diff_negates_like_ends ("f") c3A c3B ("web@f") c3cAB h (by decide)

/-- Counterexample to Claim C3 as stated: with an autoscaled identity,
`diff(A,B).maxAnnualDelta = -480` while `-diff(B,A).minAnnualDelta = -48`. -/
theorem c3_counterexample :
    (diffSnapshots ("f") c3A c3B).map (·.max_cost_diff) = [-480] ∧
    (diffSnapshots ("f") c3B c3A).map (·.min_cost_diff) = [48] ∧
    ¬ ((-480 : ℚ) = -(48 : ℚ)) := by
  refine ⟨?_, ?_, by norm_num⟩ <;>
  · simp only [diffSnapshots, keysUnion, c3A, c3B, reportedDelta, diffEntry,
      lookupSpec, zeroSpec, calculate_annual_cost, MEMORY_COST_PER_GB,
      CPU_COST_PER_CORE, keyBaseName, List.find?, List.map, List.filterMap, toL]
    norm_num

end Wozz

namespace Wozz

/-! ### Claim C4 -/

theorem extractDoc_isOk (file : String) (idx : Nat) (d : List Char)
    (h : docPayloadsOk d = true) : (extractDoc file idx d).isOk = true := by
  unfold docPayloadsOk at h
  rw [Bool.and_eq_true] at h
  obtain ⟨hm, hc⟩ := h
  unfold extractDoc
  split
  · rfl
  · by_cases hor : (memCaptureLines (splitLines d)).isSome
        || (cpuCaptureLines (splitLines d)).isSome
    · rw [if_pos hor]
      have hmok : ∃ q, parseField (memCaptureLines (splitLines d)) .memory = .ok q := by
        cases hmv : memCaptureLines (splitLines d) with
        | none => exact ⟨0, rfl⟩
        | some v =>
          rw [hmv] at hm
          obtain ⟨q, hq⟩ := Option.isSome_iff_exists.1 hm
          exact ⟨q, by simp [parseField, hq]⟩
      have hcok : ∃ q, parseField (cpuCaptureLines (splitLines d)) .cpu = .ok q := by
        cases hcv : cpuCaptureLines (splitLines d) with
        | none => exact ⟨0, rfl⟩
        | some v =>
          rw [hcv] at hc
          obtain ⟨q, hq⟩ := Option.isSome_iff_exists.1 hc
          exact ⟨q, by simp [parseField, hq]⟩
      obtain ⟨qm, hqm⟩ := hmok
      obtain ⟨qc, hqc⟩ := hcok
      rw [hqm, hqc]
      rfl
    · rw [if_neg hor]
      rfl

theorem extractDocs_isOk (file : String) (idx : Nat) (ds : List (List Char))
    (h : ds.all docPayloadsOk = true) : (extractDocs file idx ds).isOk = true := by
  induction ds generalizing idx with
  | nil => rfl
  | cons d ds ih =>
    rw [List.all_cons, Bool.and_eq_true] at h
    unfold extractDocs
    have h1 := extractDoc_isOk file idx d h.1
    cases he : extractDoc file idx d with
    | error e => rw [he] at h1; exact absurd h1 (by simp [Except.isOk, Except.toBool])
    | ok r =>
      have h2 := ih (idx + 1) h.2
      cases he2 : extractDocs file (idx + 1) ds with
      | error e => rw [he2] at h2; exact absurd h2 (by simp [Except.isOk, Except.toBool])
      | ok rest => cases r <;> rfl

/-- Claim C4 (corrected).  Extraction never raises *provided every captured
memory/cpu payload is a well-formed numeric*; a malformed payload raises the
`float` conversion error out of `extract_resources_from_yaml` (see the
counterexample), so the unconditional "extraction never raises" fails. -/
theorem c4_extraction_ok_when_payloads_wellformed (text : List Char) (file : String)
    (h : payloadsWellFormed text = true) :
    (extract_resources_from_yaml text file).isOk = true :=
  extractDocs_isOk file 0 (splitDocs text) h

set_option maxRecDepth 4000 in
/-- Witness for Claim C4 on a well-formed manifest. -/
theorem c4_witness :
    payloadsWellFormed c8doc = true ∧
    (extract_resources_from_yaml c8doc ("f")).isOk = true :=
  ⟨by decide, c4_extraction_ok_when_payloads_wellformed c8doc ("f") (by decide)⟩

set_option maxRecDepth 4000 in
/-- The `\s*` after `memory:` crosses newlines, so a value on the next line is
still captured (as in the source regex). -/
theorem memCapture_crosses_newlines :
    memCaptureLines (splitLines (toL ("requests:\n  memory:\n    abc"))) =
      some (toL ("abc")) := by decide

set_option maxRecDepth 4000 in
/-- Counterexample to Claim C4 as stated: a document whose memory payload is
`abc` makes extraction raise (model: return the `ValueError` payload) instead
of contributing or being silently omitted — also when the malformed payload
sits on the line after the `memory:` key. -/
theorem c4_counterexample :
    extract_resources_from_yaml c4text ("f") = .error ("abc") ∧
    extract_resources_from_yaml (toL ("requests:\n  memory:\n    abc")) ("f") =
      .error ("abc") := by
  exact ⟨by decide, by decide⟩

end Wozz

namespace Wozz

/-! ### Claim C8 -/

/-- Claim C8 (corrected).  For a non-HPA document, the extractor's replica
range is `{N,N}` when the *anchored* `replicas:` search finds `N` — the
pattern `(?:^|\n)replicas:` only matches a `replicas:` field at the very start
of a line, not at arbitrary indentation — and defaults to `{1,1}` otherwise
(in particular for a `replicas:` field under indentation, see the
counterexample). -/
theorem c8_replicas_resolution (file : String) (idx : Nat) (doc : List Char)
    (key : String) (spec : ResourceSpecA)
    (h : extractDoc file idx doc = .ok (some (key, spec)))
    (hk : spec.kind ≠ "HorizontalPodAutoscaler") :
    (∀ n, flatReplicas (splitLines doc) = some n →
      spec.min_replicas = n ∧ spec.max_replicas = n) ∧
    (flatReplicas (splitLines doc) = none →
      spec.min_replicas = 1 ∧ spec.max_replicas = 1) := by
  unfold extractDoc at h
  split at h
  · exact absurd h (by simp)
  · by_cases hor : (memCaptureLines (splitLines doc)).isSome
        || (cpuCaptureLines (splitLines doc)).isSome
    · rw [if_pos hor] at h
      cases hpm : parseField (memCaptureLines (splitLines doc)) .memory with
      | error e => rw [hpm] at h; exact absurd h (by simp)
      | ok qm =>
        cases hpc : parseField (cpuCaptureLines (splitLines doc)) .cpu with
        | error e => rw [hpm, hpc] at h; exact absurd h (by simp)
        | ok qc =>
          rw [hpm, hpc] at h
          simp only [Except.ok.injEq, Option.some.injEq, Prod.mk.injEq] at h
          obtain ⟨-, hs⟩ := h
          subst hs
          simp only [replicaRange] at hk
          constructor
          · intro n hn
            simp only [replicaRange]
            rw [if_neg hk, hn]
            exact ⟨rfl, rfl⟩
          · intro hn
            simp only [replicaRange]
            rw [if_neg hk, hn]
            exact ⟨rfl, rfl⟩
    · rw [if_neg hor] at h
      exact absurd h (by simp)

set_option maxRecDepth 8000 in
/-- Witness for Claim C8: an unindented `replicas: 3` on a Deployment
document yields the replica range `{3,3}`. -/
theorem c8_witness :
    extractDoc ("f") 0 c8wdoc = .ok (some ("resource-0@f", ⟨0, 1, 3, 3, "Deployment"⟩)) ∧
    flatReplicas (splitLines c8wdoc) = some 3 ∧
    (⟨0, 1, 3, 3, "Deployment"⟩ : ResourceSpecA).min_replicas = 3 ∧
    (⟨0, 1, 3, 3, "Deployment"⟩ : ResourceSpecA).max_replicas = 3 := by
  have h : extractDoc ("f") 0 c8wdoc =
      .ok (some ("resource-0@f", ⟨0, 1, 3, 3, "Deployment"⟩)) := by
    simp +decide [extractDoc, c8wdoc, toL, splitLines, pyStrip, pyWS, nameCapture,
      kindCapture, memCaptureLines, cpuCaptureLines, keyLineValue, lineRequestsTail,
      captureValue, wsBacktrack, joinLines, valClass, stripQuote1, flatReplicas,
      numAfter, replicaRange, parseField,
      parse_resource_value, endsL, dropEnd, floatParse, signedCore, floatCore,
      expPart, digitsToNat, isAlphaC, isNameChar]
  have hfr : flatReplicas (splitLines c8wdoc) = some 3 := by decide
  have hres := c8_replicas_resolution ("f") 0 c8wdoc ("resource-0@f")
    ⟨0, 1, 3, 3, "Deployment"⟩ h (by decide)
  exact ⟨h, hfr, hres.1 3 hfr⟩

/-- The `\s*` after the anchored `replicas:` crosses newlines, so
`replicas:\n3` resolves to 3 (as in the source regex). -/
theorem flatReplicas_crosses_newlines :
    flatReplicas (splitLines (toL ("replicas:\n3"))) = some 3 := by decide

set_option maxRecDepth 8000 in
/-- Counterexample to Claim C8 as stated ("at any position/indentation"): a
Deployment document declaring `  replicas: 3` under `spec:` still gets the
default replica range `{1,1}`. -/
theorem c8_counterexample :
    extractDoc ("f") 0 c8doc = .ok (some ("web@f", ⟨1, 0, 1, 1, "Deployment"⟩)) ∧
    toL ("  replicas: 3") ∈ splitLines c8doc ∧
    ¬ ((1 : Nat) = 3) := by
  refine ⟨?_, by decide, by decide⟩
  simp +decide [extractDoc, c8doc, toL, splitLines, pyStrip, pyWS, nameCapture,
    kindCapture, memCaptureLines, cpuCaptureLines, keyLineValue, lineRequestsTail,
    captureValue, wsBacktrack, joinLines, valClass, stripQuote1, flatReplicas,
    numAfter, replicaRange, parseField,
    parse_resource_value, endsL, dropEnd, floatParse, signedCore, floatCore,
    expPart, digitsToNat, isAlphaC, isNameChar]

end Wozz

namespace Wozz

/-! ### Claim C10 -/

/-- Claim C10 (confirmed): a container whose `requests` dict is empty (or
absent) is only recorded toward the missing-requests finding; the `continue`
skips every waste rule, regardless of declared limits and of available usage
data, so no over-provisioned or underutilized finding is produced for it. -/
theorem c10_missing_requests_skips_rules (podName ns : String)
    (usage : Option (ℚ × ℚ)) (c : ContainerR) (h : c.requests = []) :
    processContainer podName ns usage c =
      .ok ([], some (podName, ns, c.name.getD ("unknown"))) := by
  unfold processContainer
  rw [if_pos h]

/-- Witness for Claim C10: a container with limits and usage data but no
requests yields no waste finding, only the missing-requests record. -/
theorem c10_witness :
    processContainer ("p") ("ns") (some (1, 1))
      ⟨some ("c"), [], [(("memory"), ("8Gi")), (("cpu"), ("4"))]⟩ =
      .ok ([], some (("p"), ("ns"), ("c"))) :=
  c10_missing_requests_skips_rules ("p") ("ns") (some (1, 1))
    ⟨some ("c"), [], [(("memory"), ("8Gi")), (("cpu"), ("4"))]⟩ rfl

/-! ### Claim C7 -/

/-- Claim C7 (corrected).  A LoadBalancer-typed service is flagged only when
its `creationTimestamp` is present and nonempty: a snapshot with exactly one
such service yields exactly one ORPHANED_LB finding whose `monthlySavings`
equals `LB_COST_PER_MONTH`; a LoadBalancer service with an empty/missing
timestamp is not flagged at all (see the counterexample). -/
theorem c7_orphaned_lb_single (name ns : Option String) (ts : String)
    (hts : ts ≠ "") :
    analyze_load_balancers [⟨name, ns, "LoadBalancer", ts⟩] =
      [{ ftype := "ORPHANED_LB", severity := "MEDIUM",
         resourcesAffected := some 1, monthlySavings := LB_COST_PER_MONTH }] := by
  unfold analyze_load_balancers
  rw [show List.filterMap (fun s : ServiceR =>
        if s.stype = "LoadBalancer" then
          if s.creationTimestamp ≠ "" then
            some (s.name.getD ("unknown"), s.nspace.getD ("default"))
          else none
        else none) [⟨name, ns, "LoadBalancer", ts⟩]
      = [(name.getD ("unknown"), ns.getD ("default"))] by
    simp [List.filterMap, hts]]
  simp [LB_COST_PER_MONTH]

/-- Witness for Claim C7 at a concrete LoadBalancer service. -/
theorem c7_witness :
    analyze_load_balancers [⟨some ("svc"), some ("default"), "LoadBalancer",
        "2024-01-01T00:00:00Z"⟩] =
      [{ ftype := "ORPHANED_LB", severity := "MEDIUM",
         resourcesAffected := some 1, monthlySavings := LB_COST_PER_MONTH }] :=
  c7_orphaned_lb_single (some ("svc")) (some ("default")) ("2024-01-01T00:00:00Z")
    (by decide)

/-- Counterexample to Claim C7 as stated: a LoadBalancer service with an
empty `creationTimestamp` produces no finding at all. -/
theorem c7_counterexample :
    analyze_load_balancers [⟨some ("svc"), some ("default"), "LoadBalancer", ""⟩]
      = [] := by
  unfold analyze_load_balancers
  simp [List.filterMap]

end Wozz

namespace Wozz

/-! ### Claim C5 -/

theorem calculate_memory_waste_limit_zero (mreq : ℚ) (mu : Option ℚ) :
    calculate_memory_waste mreq 0 mu = 0 := by
  unfold calculate_memory_waste
  rw [if_pos (Or.inl rfl)]

theorem calculate_cpu_waste_limit_zero (creq : ℚ) (cu : Option ℚ) :
    calculate_cpu_waste creq 0 cu = 0 := by
  unfold calculate_cpu_waste
  rw [if_pos (Or.inl rfl)]

theorem calculate_cpu_waste_under {creq clim u : ℚ} (hreq : 0 < creq)
    (hlim : 0 < clim) (hratio : clim ≤ creq * 4) (hu : 0 < u)
    (hu2 : u < creq * (1 / 5)) :
    calculate_cpu_waste creq clim (some u) =
      max 0 (creq - u * (3 / 2)) * CPU_COST_PER_VCPU_MONTH := by
  unfold calculate_cpu_waste
  rw [if_neg (by push_neg; exact ⟨hlim.ne', hreq.ne'⟩), if_neg (not_lt.2 hratio)]
  exact if_pos ⟨hu, hu2⟩

theorem calculate_cpu_waste_over {creq clim : ℚ} (hreq : creq ≠ 0)
    (hlim : clim ≠ 0) (hratio : creq * 4 < clim) (cu : Option ℚ) :
    calculate_cpu_waste creq clim cu =
      (clim - creq * (3 / 2)) * CPU_COST_PER_VCPU_MONTH := by
  unfold calculate_cpu_waste
  rw [if_neg (by push_neg; exact ⟨hlim, hreq⟩), if_pos hratio]

theorem calculate_memory_waste_under {mreq mlim u : ℚ} (hlim : mlim ≠ 0)
    (hreq : mreq ≠ 0) (hratio : mlim ≤ mreq * 3) (hu : 0 < u)
    (hu2 : u < mreq * (1 / 5)) :
    calculate_memory_waste mreq mlim (some u) =
      max 0 (mreq - u * (3 / 2)) * MEMORY_COST_PER_GB_MONTH := by
  unfold calculate_memory_waste
  rw [if_neg (by push_neg; exact ⟨hlim, hreq⟩), if_neg (not_lt.2 hratio)]
  exact if_pos ⟨hu, hu2⟩

theorem calculate_memory_waste_over {mreq mlim : ℚ} (hlim : mlim ≠ 0)
    (hreq : mreq ≠ 0) (hratio : mreq * 3 < mlim) (mu : Option ℚ) :
    calculate_memory_waste mreq mlim mu =
      (mlim - mreq * (3 / 2)) * MEMORY_COST_PER_GB_MONTH := by
  unfold calculate_memory_waste
  rw [if_neg (by push_neg; exact ⟨hlim, hreq⟩), if_pos hratio]

theorem calculate_memory_waste_pos {mreq mlim u : ℚ} (hlim : mlim ≠ 0)
    (hreq : 0 < mreq) (hu : 0 < u) (hu2 : u < mreq * (1 / 5)) :
    0 < calculate_memory_waste mreq mlim (some u) := by
  by_cases h3 : mreq * 3 < mlim
  · rw [calculate_memory_waste_over hlim hreq.ne' h3]
    have hx : 0 < mlim - mreq * (3 / 2) := by nlinarith
    exact mul_pos hx (by norm_num [MEMORY_COST_PER_GB_MONTH])
  · rw [calculate_memory_waste_under hlim hreq.ne' (not_lt.1 h3) hu hu2]
    have hx : 0 < mreq - u * (3 / 2) := by nlinarith
    rw [max_eq_right hx.le]
    exact mul_pos hx (by norm_num [MEMORY_COST_PER_GB_MONTH])

theorem memOverF_filter_cpu (w : ℚ) (p n cn : String) :
    (memOverF w p n cn).filter
      (fun f => f.ftype == "UNDERUTILIZED_CPU" || f.ftype == "OVER_PROVISIONED_CPU")
      = [] := by
  unfold memOverF
  split
  · rfl
  · rfl

theorem memOverF_filter_um (w : ℚ) (p n cn : String) :
    (memOverF w p n cn).filter (fun f => f.ftype == "UNDERUTILIZED_MEMORY") = [] := by
  unfold memOverF
  split
  · rfl
  · rfl

theorem memUnderF_filter_cpu (mreq : ℚ) (mu : Option ℚ) (w : ℚ) (p n cn : String) :
    (memUnderF mreq mu w p n cn).filter
      (fun f => f.ftype == "UNDERUTILIZED_CPU" || f.ftype == "OVER_PROVISIONED_CPU")
      = [] := by
  unfold memUnderF
  repeat' split
  all_goals rfl

theorem cpuWasteF_filter_um (creq : ℚ) (cu : Option ℚ) (w : ℚ) (p n cn : String) :
    (cpuWasteF creq cu w p n cn).filter
      (fun f => f.ftype == "UNDERUTILIZED_MEMORY") = [] := by
  unfold cpuWasteF
  repeat' split
  all_goals rfl

theorem memUnderF_of_waste_ne {mw : ℚ} (hmw : mw ≠ 0) (mreq : ℚ) (mu : Option ℚ)
    (p n cn : String) : memUnderF mreq mu mw p n cn = [] := by
  unfold memUnderF
  repeat' split
  all_goals rfl

theorem cpuWasteF_zero (creq : ℚ) (cu : Option ℚ) (p n cn : String) :
    cpuWasteF creq cu 0 p n cn = [] := by
  unfold cpuWasteF
  rw [if_neg (lt_irrefl 0)]

theorem cpuWasteF_eq_UC {creq u w : ℚ} (hreq : 0 < creq) (hu : 0 < u)
    (hu2 : u < creq * (1 / 5)) (hw : 0 < w) (p n cn : String) :
    cpuWasteF creq (some u) w p n cn =
      [{ ftype := "UNDERUTILIZED_CPU", severity := sevBucket3 w,
         pod := some p, nspace := some n, container := some cn,
         monthlySavings := w }] := by
  unfold cpuWasteF
  rw [if_pos hw]
  have hu2i : u < creq * 5⁻¹ := by simpa using hu2
  have hb : (if 0 < creq then
      match (some u : Option ℚ) with
      | some uu => decide (0 < uu) && decide (uu < creq * (1 / 5))
      | none => false
    else false) = true := by
    rw [if_pos hreq]
    simp [hu, hu2i]
  rw [hb]
  simp

/-- Claim C5 (corrected).  With usage present, positive and below
`request*0.2`, the underutilization findings depend on the declared limits,
in both directions:
(1) memory, no limit declared (`limit = 0`): the UNDERUTILIZED_MEMORY finding
with waste `(request - usage*1.5) * rate` is emitted;
(2) memory, nonzero limit: *no* UNDERUTILIZED_MEMORY finding is emitted at
all; the memory waste is positive and carries the OVER_PROVISIONED_MEMORY
label instead;
(3) cpu, nonzero limit `≤ request*4`: the cpu-typed findings are exactly one
UNDERUTILIZED_CPU finding with waste `max(0, request - usage*1.5) * rate`;
(4) cpu, limit `> request*4`: the cpu-typed findings are exactly one
UNDERUTILIZED_CPU finding, but with the over-provisioning waste
`(limit - request*1.5) * rate`, not the claimed formula;
(5) cpu, no limit (`limit = 0`): no cpu-typed finding is emitted. -/
theorem c5_underutilized_depends_on_limits :
    (∀ (mreq u creq clim : ℚ) (cu : Option ℚ) (p n cn : String),
      0 < mreq → 0 < u → u < mreq * (1 / 5) →
      ({ ftype := "UNDERUTILIZED_MEMORY",
         severity := sevBucket2 ((mreq - u * (3 / 2)) * MEMORY_COST_PER_GB_MONTH),
         pod := some p, nspace := some n, container := some cn,
         monthlySavings := (mreq - u * (3 / 2)) * MEMORY_COST_PER_GB_MONTH } : FindingR)
        ∈ containerWaste mreq 0 creq clim (some u) cu p n cn) ∧
    (∀ (mreq mlim creq clim u : ℚ) (cu : Option ℚ) (p n cn : String),
      mlim ≠ 0 → 0 < mreq → 0 < u → u < mreq * (1 / 5) →
      (containerWaste mreq mlim creq clim (some u) cu p n cn).filter
          (fun f => f.ftype == "UNDERUTILIZED_MEMORY") = [] ∧
      0 < calculate_memory_waste mreq mlim (some u) ∧
      ({ ftype := "OVER_PROVISIONED_MEMORY",
         severity := sevBucket3 (calculate_memory_waste mreq mlim (some u)),
         pod := some p, nspace := some n, container := some cn,
         monthlySavings := calculate_memory_waste mreq mlim (some u) } : FindingR)
        ∈ containerWaste mreq mlim creq clim (some u) cu p n cn) ∧
    (∀ (mreq mlim creq clim u : ℚ) (mu : Option ℚ) (p n cn : String),
      0 < creq → 0 < clim → clim ≤ creq * 4 → 0 < u → u < creq * (1 / 5) →
      (containerWaste mreq mlim creq clim mu (some u) p n cn).filter
          (fun f => f.ftype == "UNDERUTILIZED_CPU" || f.ftype == "OVER_PROVISIONED_CPU")
        = [{ ftype := "UNDERUTILIZED_CPU",
             severity := sevBucket3 (max 0 (creq - u * (3 / 2)) * CPU_COST_PER_VCPU_MONTH),
             pod := some p, nspace := some n, container := some cn,
             monthlySavings := max 0 (creq - u * (3 / 2)) * CPU_COST_PER_VCPU_MONTH }]) ∧
    (∀ (mreq mlim creq clim u : ℚ) (mu : Option ℚ) (p n cn : String),
      0 < creq → creq * 4 < clim → 0 < u → u < creq * (1 / 5) →
      (containerWaste mreq mlim creq clim mu (some u) p n cn).filter
          (fun f => f.ftype == "UNDERUTILIZED_CPU" || f.ftype == "OVER_PROVISIONED_CPU")
        = [{ ftype := "UNDERUTILIZED_CPU",
             severity := sevBucket3 ((clim - creq * (3 / 2)) * CPU_COST_PER_VCPU_MONTH),
             pod := some p, nspace := some n, container := some cn,
             monthlySavings := (clim - creq * (3 / 2)) * CPU_COST_PER_VCPU_MONTH }]) ∧
    (∀ (mreq mlim creq u : ℚ) (mu : Option ℚ) (p n cn : String),
      (containerWaste mreq mlim creq 0 mu (some u) p n cn).filter
          (fun f => f.ftype == "UNDERUTILIZED_CPU" || f.ftype == "OVER_PROVISIONED_CPU")
        = []) := by
  refine ⟨?_, ?_, ?_, ?_, ?_⟩
  · intro mreq u creq clim cu p n cn hreq hu hu2
    unfold containerWaste
    rw [calculate_memory_waste_limit_zero]
    refine List.mem_append.2 (Or.inr ?_)
    unfold memUnderF
    have hu2i : u < mreq * 5⁻¹ := by simpa using hu2
    simp [hu.ne', hreq, hu2i]
  · intro mreq mlim creq clim u cu p n cn hlim hreq hu hu2
    have hw := calculate_memory_waste_pos hlim hreq hu hu2
    refine ⟨?_, hw, ?_⟩
    · unfold containerWaste
      rw [List.filter_append, List.filter_append, memOverF_filter_um,
        cpuWasteF_filter_um, memUnderF_of_waste_ne hw.ne']
      rfl
    · unfold containerWaste
      refine List.mem_append.2 (Or.inl (List.mem_append.2 (Or.inl ?_)))
      unfold memOverF
      rw [if_pos hw]
      exact List.mem_singleton_self _
  · intro mreq mlim creq clim u mu p n cn hreq hlim hratio hu hu2
    have hx : 0 < creq - u * (3 / 2) := by nlinarith
    have hw : 0 < max 0 (creq - u * (3 / 2)) * CPU_COST_PER_VCPU_MONTH := by
      rw [max_eq_right hx.le]
      exact mul_pos hx (by norm_num [CPU_COST_PER_VCPU_MONTH])
    unfold containerWaste
    rw [List.filter_append, List.filter_append, memOverF_filter_cpu,
      memUnderF_filter_cpu, calculate_cpu_waste_under hreq hlim hratio hu hu2,
      cpuWasteF_eq_UC hreq hu hu2 hw p n cn]
    rfl
  · intro mreq mlim creq clim u mu p n cn hreq hratio hu hu2
    have hlim : 0 < clim := by nlinarith
    have hw : 0 < (clim - creq * (3 / 2)) * CPU_COST_PER_VCPU_MONTH := by
      have hx : 0 < clim - creq * (3 / 2) := by nlinarith
      exact mul_pos hx (by norm_num [CPU_COST_PER_VCPU_MONTH])
    unfold containerWaste
    rw [List.filter_append, List.filter_append, memOverF_filter_cpu,
      memUnderF_filter_cpu, calculate_cpu_waste_over hreq.ne' hlim.ne' hratio (some u),
      cpuWasteF_eq_UC hreq hu hu2 hw p n cn]
    rfl
  · intro mreq mlim creq u mu p n cn
    unfold containerWaste
    rw [List.filter_append, List.filter_append, memOverF_filter_cpu,
      memUnderF_filter_cpu, calculate_cpu_waste_limit_zero, cpuWasteF_zero]
    rfl

/-- Witness for Claim C5: memory dimension with no limit declared. -/
theorem c5_witness :
    ({ ftype := "UNDERUTILIZED_MEMORY",
       severity := sevBucket2 (((1 : ℚ) - (1 / 10) * (3 / 2)) * MEMORY_COST_PER_GB_MONTH),
       pod := some ("p"), nspace := some ("ns"), container := some ("c"),
       monthlySavings := ((1 : ℚ) - (1 / 10) * (3 / 2)) * MEMORY_COST_PER_GB_MONTH } : FindingR)
      ∈ containerWaste 1 0 0 0 (some (1 / 10)) none ("p") ("ns") ("c") :=
  c5_underutilized_depends_on_limits.1 1 (1 / 10) 0 0 none ("p") ("ns") ("c")
    (by norm_num) (by norm_num) (by norm_num)

/-- Counterexample to Claim C5 as stated: a memory-underutilized container
(usage 0.1 < 0.2×request) with a declared limit of 2 yields an
OVER_PROVISIONED_MEMORY finding and no UNDERUTILIZED_MEMORY finding. -/
theorem c5_counterexample :
    containerWaste 1 2 0 0 (some (1 / 10)) none ("p") ("ns") ("c") =
      [{ ftype := "OVER_PROVISIONED_MEMORY", severity := "LOW",
         pod := some ("p"), nspace := some ("ns"), container := some ("c"),
         monthlySavings := 153 / 25 }] ∧
    ((1 : ℚ) / 10) < 1 * (1 / 5) ∧
    (containerWaste 1 2 0 0 (some (1 / 10)) none ("p") ("ns") ("c")).all
      (fun f => f.ftype != "UNDERUTILIZED_MEMORY") = true := by
  refine ⟨?_, by norm_num, ?_⟩ <;>
  · norm_num [containerWaste, memOverF, cpuWasteF, memUnderF,
      calculate_memory_waste, calculate_cpu_waste, sevBucket3, sevBucket2,
      MEMORY_COST_PER_GB_MONTH, CPU_COST_PER_VCPU_MONTH]
    all_goals decide

/-! ### Claim C6 -/

/-- Claim C6 (corrected).  The three-tier bucketing `>500 → HIGH`,
`>100 → MEDIUM`, else `LOW` applies to the OVER_PROVISIONED_MEMORY,
OVER_PROVISIONED_CPU and UNDERUTILIZED_CPU findings; the UNDERUTILIZED_MEMORY
finding uses a two-tier bucketing with no HIGH tier (`>100 → MEDIUM`, else
`LOW`), so a savings value above 500 is labelled MEDIUM there (see the
counterexample). -/
theorem c6_severity_bucketing (mreq mlim creq clim : ℚ) (mu cu : Option ℚ)
    (p n cn : String) (f : FindingR)
    (hf : f ∈ containerWaste mreq mlim creq clim mu cu p n cn) :
    (f.ftype = "OVER_PROVISIONED_MEMORY" ∨ f.ftype = "OVER_PROVISIONED_CPU" ∨
        f.ftype = "UNDERUTILIZED_CPU" →
      f.severity = (if 500 < f.monthlySavings then "HIGH"
        else if 100 < f.monthlySavings then "MEDIUM" else "LOW")) ∧
    (f.ftype = "UNDERUTILIZED_MEMORY" →
      f.severity = (if 100 < f.monthlySavings then "MEDIUM" else "LOW")) := by
  unfold containerWaste at hf
  rcases List.mem_append.1 hf with hf1 | hf2
  · rcases List.mem_append.1 hf1 with hfo | hfc
    · unfold memOverF at hfo
      split at hfo
      · rw [List.mem_singleton.1 hfo]
        refine ⟨fun _ => ?_, fun hum => absurd hum (by
          show ¬ ("OVER_PROVISIONED_MEMORY" : String) = "UNDERUTILIZED_MEMORY"
          decide)⟩
        simp [sevBucket3]
      · exact absurd hfo (List.not_mem_nil f)
    · unfold cpuWasteF at hfc
      split at hfc
      · rw [List.mem_singleton.1 hfc]
        constructor
        · intro _
          simp [sevBucket3]
        · intro hum
          have hne : ∀ b : Bool,
              (if b = true then ("UNDERUTILIZED_CPU" : String)
                else "OVER_PROVISIONED_CPU") ≠ "UNDERUTILIZED_MEMORY" := by
            intro b
            cases b <;> decide
          exact absurd hum (hne _)
      · exact absurd hfc (List.not_mem_nil f)
  · unfold memUnderF at hf2
    split at hf2
    · split at hf2
      · split at hf2
        · split at hf2
          · rw [List.mem_singleton.1 hf2]
            refine ⟨fun hop => ?_, fun _ => by simp [sevBucket2]⟩
            rcases hop with hop | hop | hop
            · exact absurd hop (by
                show ¬ ("UNDERUTILIZED_MEMORY" : String) = "OVER_PROVISIONED_MEMORY"
                decide)
            · exact absurd hop (by
                show ¬ ("UNDERUTILIZED_MEMORY" : String) = "OVER_PROVISIONED_CPU"
                decide)
            · exact absurd hop (by
                show ¬ ("UNDERUTILIZED_MEMORY" : String) = "UNDERUTILIZED_CPU"
                decide)
          · exact absurd hf2 (List.not_mem_nil f)
        · exact absurd hf2 (List.not_mem_nil f)
      · exact absurd hf2 (List.not_mem_nil f)
    · exact absurd hf2 (List.not_mem_nil f)

/-- Witness for Claim C6 at a concrete over-provisioned-memory finding. -/
theorem c6_witness :
    (⟨"OVER_PROVISIONED_MEMORY", "LOW", some ("p"), some ("ns"), some ("c"),
        234 / 5, none, none, []⟩ : FindingR).severity =
      (if 500 < (⟨"OVER_PROVISIONED_MEMORY", "LOW", some ("p"), some ("ns"), some ("c"),
          234 / 5, none, none, []⟩ : FindingR).monthlySavings then "HIGH"
        else if 100 < (⟨"OVER_PROVISIONED_MEMORY", "LOW", some ("p"), some ("ns"),
          some ("c"), 234 / 5, none, none, []⟩ : FindingR).monthlySavings then "MEDIUM"
        else "LOW") := by
  have hmem : (⟨"OVER_PROVISIONED_MEMORY", "LOW", some ("p"), some ("ns"), some ("c"),
      234 / 5, none, none, []⟩ : FindingR)
      ∈ containerWaste 1 8 0 0 none none ("p") ("ns") ("c") := by
    norm_num [containerWaste, memOverF, cpuWasteF, memUnderF,
      calculate_memory_waste, calculate_cpu_waste, sevBucket3,
      MEMORY_COST_PER_GB_MONTH, CPU_COST_PER_VCPU_MONTH]
  exact (c6_severity_bucketing 1 8 0 0 none none ("p") ("ns") ("c") _ hmem).1
    (Or.inl rfl)

/-- Counterexample to Claim C6 as stated: an UNDERUTILIZED_MEMORY finding with
monthly savings 709.2 > 500 is labelled MEDIUM, not HIGH. -/
theorem c6_counterexample :
    containerWaste 100 0 0 0 (some 1) none ("p") ("ns") ("c") =
      [{ ftype := "UNDERUTILIZED_MEMORY", severity := "MEDIUM",
         pod := some ("p"), nspace := some ("ns"), container := some ("c"),
         monthlySavings := 3546 / 5 }] ∧
    (500 : ℚ) < 3546 / 5 ∧ ¬ (("MEDIUM" : String) = "HIGH") := by
  refine ⟨?_, by norm_num, by simp⟩
  norm_num [containerWaste, memOverF, cpuWasteF, memUnderF,
    calculate_memory_waste, calculate_cpu_waste, sevBucket3, sevBucket2,
    MEMORY_COST_PER_GB_MONTH, CPU_COST_PER_VCPU_MONTH]

end Wozz

namespace Wozz

/-! ### Claim C9 -/

theorem pyMaxBySev_cons (x a : FindingR) (as : List FindingR) :
    pyMaxBySev x (a :: as) =
      pyMaxBySev (if severity_order x.severity < severity_order a.severity
        then a else x) as := rfl

theorem pyMaxBySev_key (xs : List FindingR) (x : FindingR) :
    severity_order (pyMaxBySev x xs).severity =
      (xs.map fun f => severity_order f.severity).foldl max
        (severity_order x.severity) := by
  induction xs generalizing x with
  | nil => rfl
  | cons a as ih =>
    rw [pyMaxBySev_cons, ih, List.map_cons, List.foldl_cons]
    congr 1
    by_cases hc : severity_order x.severity < severity_order a.severity
    · rw [if_pos hc]
      exact (max_eq_right hc.le).symm
    · rw [if_neg hc]
      exact (max_eq_left (not_lt.1 hc)).symm

theorem pyMaxBySev_mem (xs : List FindingR) (x : FindingR) :
    pyMaxBySev x xs ∈ x :: xs := by
  induction xs generalizing x with
  | nil => exact List.mem_singleton_self x
  | cons a as ih =>
    rw [pyMaxBySev_cons]
    rcases List.mem_cons.1 (ih (if severity_order x.severity <
        severity_order a.severity then a else x)) with h | h
    · rw [h]
      by_cases hc : severity_order x.severity < severity_order a.severity
      · rw [if_pos hc]
        exact List.mem_cons_of_mem x (List.mem_cons_self a as)
      · rw [if_neg hc]
        exact List.mem_cons_self _ _
    · exact List.mem_cons_of_mem x (List.mem_cons_of_mem a h)

theorem foldl_max_sup (l : List Nat) (i : Nat) :
    l.foldl max i = i ⊔ (l : Multiset Nat).sup := by
  induction l generalizing i with
  | nil => simp [Multiset.sup_zero]
  | cons a as ih =>
    show as.foldl max (max i a) = i ⊔ ((a ::ₘ (as : Multiset Nat)).sup)
    rw [ih, Multiset.sup_cons, ← sup_assoc]

theorem sev_eq_sevOfOrder {f : FindingR}
    (h : f.severity = "HIGH" ∨ f.severity = "MEDIUM" ∨ f.severity = "LOW") :
    f.severity = sevOfOrder (severity_order f.severity) := by
  rcases h with h | h | h <;> rw [h] <;> rfl

theorem aggSeverity_eq_sup (x : FindingR) (xs : List FindingR)
    (h : ∀ f ∈ x :: xs,
      f.severity = "HIGH" ∨ f.severity = "MEDIUM" ∨ f.severity = "LOW") :
    aggSeverity (x :: xs) =
      sevOfOrder (((x :: xs).map fun f => severity_order f.severity) :
        Multiset Nat).sup := by
  have hmem := pyMaxBySev_mem xs x
  have hkey := pyMaxBySev_key xs x
  have hs := sev_eq_sevOfOrder (h _ hmem)
  show (pyMaxBySev x xs).severity = _
  rw [hs]
  congr 1
  rw [hkey, foldl_max_sup]
  show severity_order x.severity ⊔ _ = _
  rw [List.map_cons]
  show _ = ((severity_order x.severity) ::ₘ ((xs.map fun f => severity_order f.severity) :
    Multiset Nat)).sup
  rw [Multiset.sup_cons]

theorem aggSeverity_perm {g g' : List FindingR} (h : g.Perm g')
    (hsev : ∀ f ∈ g,
      f.severity = "HIGH" ∨ f.severity = "MEDIUM" ∨ f.severity = "LOW") :
    aggSeverity g = aggSeverity g' := by
  cases g with
  | nil =>
    rw [List.Perm.eq_nil h.symm]
  | cons x xs =>
    cases g' with
    | nil => exact absurd (List.Perm.eq_nil h) (by simp)
    | cons y ys =>
      have hsev' : ∀ f ∈ y :: ys,
          f.severity = "HIGH" ∨ f.severity = "MEDIUM" ∨ f.severity = "LOW" :=
        fun f hf => hsev f (h.symm.subset hf)
      rw [aggSeverity_eq_sup x xs hsev, aggSeverity_eq_sup y ys hsev']
      have hm : (((x :: xs).map fun f => severity_order f.severity) : Multiset Nat)
          = (((y :: ys).map fun f => severity_order f.severity) : Multiset Nat) :=
        Multiset.coe_eq_coe.2 (h.map _)
      rw [hm]

end Wozz

namespace Wozz

/-- Claim C9 (corrected).  `aggregate(F)` is *not* invariant to the input
ordering of `F` as an ordered sequence: the stable sorts break savings ties by
input order (both for the top-5 examples and for the final output order), see
the counterexample.  What is invariant under permutation of `F` (given the
severities used by the detectors) is the aggregated content: the multiset of
group types and, per type, the total savings, the member count, the distinct
affected-pod count and the rolled-up severity. -/
theorem c9_aggregate_order_invariants (f g : List FindingR) (h : f.Perm g)
    (hsev : ∀ x ∈ f,
      x.severity = "HIGH" ∨ x.severity = "MEDIUM" ∨ x.severity = "LOW") :
    aggInvariant f g := by
  have hg : ∀ t, (aggGroup f t).Perm (aggGroup g t) := fun t => h.filter _
  refine ⟨(h.map _).dedup, fun t => ⟨?_, ?_, ?_, ?_⟩⟩
  · exact ((hg t).map _).sum_eq
  · exact (hg t).length_eq
  · exact ((((hg t).filter _).map _).dedup).length_eq
  · refine aggSeverity_perm (hg t) ?_
    intro x hx
    exact hsev x (List.mem_of_mem_filter hx)

/-- Witness for Claim C9 on a concrete two-finding permutation. -/
theorem c9_witness : aggInvariant [c9g1, c9g2] [c9g2, c9g1] :=
  c9_aggregate_order_invariants [c9g1, c9g2] [c9g2, c9g1]
    (List.Perm.swap c9g2 c9g1 []) (by decide)

/-- Counterexample to Claim C9 as stated: permuting two same-type findings
with equal savings but different pods permutes the top-example list of the
aggregated output, so `aggregate(F) ≠ aggregate(F')` as ordered sequences. -/
theorem c9_counterexample :
    [c9f2, c9f1].Perm [c9f1, c9f2] ∧
    (aggregate_findings [c9f1, c9f2]).map
      (fun a => a.examples.map (List.map (fun ex => ex.pod)))
      = [some [some ("a"), some ("b")]] ∧
    (aggregate_findings [c9f2, c9f1]).map
      (fun a => a.examples.map (List.map (fun ex => ex.pod)))
      = [some [some ("b"), some ("a")]] ∧
    ¬ (aggregate_findings [c9f1, c9f2] = aggregate_findings [c9f2, c9f1]) := by
  have e1 : (aggregate_findings [c9f1, c9f2]).map
      (fun a => a.examples.map (List.map (fun ex => ex.pod)))
      = [some [some ("a"), some ("b")]] := by
    simp +decide [aggregate_findings, aggTypes, aggGroup, aggOne, aggTotal,
      aggSeverity, pyMaxBySev, aggPodsAffected, keyOfFinding, pyTruthyOpt,
      sortDescBy, insDescBy, exampleOf, detailGet, aggDescription,
      severity_order, c9f1, c9f2]
  have e2 : (aggregate_findings [c9f2, c9f1]).map
      (fun a => a.examples.map (List.map (fun ex => ex.pod)))
      = [some [some ("b"), some ("a")]] := by
    simp +decide [aggregate_findings, aggTypes, aggGroup, aggOne, aggTotal,
      aggSeverity, pyMaxBySev, aggPodsAffected, keyOfFinding, pyTruthyOpt,
      sortDescBy, insDescBy, exampleOf, detailGet, aggDescription,
      severity_order, c9f1, c9f2]
  refine ⟨List.Perm.swap c9f1 c9f2 [], e1, e2, fun hEq => ?_⟩
  rw [hEq, e2] at e1
  exact absurd e1 (by decide)

end Wozz
